import Mathlib

/-!
# elmo: the SQL shard layer (`sql/Shard.go`), its error wrapper (`errs/errs.go`)
and the uid generator (`random/random-uid.go`)

A shallow embedding of the Go sources.  Conventions of the embedding:

* a Go `string` / `[]byte` is a Lean `String`, one character per byte;
* `int64` / `uint64` values are `Int` / `Nat`; where the code narrows an
  integer the reduction modulo `2^w` is written out;
* an `interface{}` argument, a destination passed through `reflect`, a row
  stream, a connection and a transaction are explicit data;
* a Go panic is an explicit outcome, it is never confused with an error return;
* `debug.Stack()` and `time.Now()` (the diagnostics an `errs.Err` captures) are
  not carried: no function of the shard layer reads them.
-/

namespace Elmo

/-! ## errs -/

/-- A standard Go `error`, identified by the text its `Error()` method returns. -/
abbrev StdError := String

/-- An `interface{}` value handed to the driver as a statement argument.
`typ` is the name of the dynamic type (`"string"` for the predeclared type, any
other name for a defined type such as `type Foo string`). -/
inductive Arg where
  /-- the nil interface (`reflect.ValueOf(nil).Kind() == reflect.Invalid`) -/
  | null
  /-- a value whose kind is `reflect.String` -/
  | str (typ : String) (s : String)
  /-- a value of a signed integer kind -/
  | int (typ : String) (i : Int)
  /-- a value of an unsigned integer kind -/
  | uint (typ : String) (n : Nat)
  /-- a value of kind `reflect.Bool` -/
  | bool (typ : String) (b : Bool)
  /-- a byte slice (kind `reflect.Slice`) -/
  | bytes (typ : String) (bs : String)
  /-- a value of any other kind (pointer, struct, float, ...), with its printed form -/
  | other (typ : String) (repr : String)
  deriving DecidableEq, Repr

mutual
/-- The `err` struct behind `errs.Err`: message, wrapped standard error, metadata. -/
inductive Err where
  | mk (message : String) (stdErr : Option StdError) (info : List (String × InfoVal))
/-- A value stored in an `errs.Info` map (`map[string]interface{}`). -/
inductive InfoVal where
  | str (s : String)
  | args (as : List Arg)
  | num (i : Int)
  | bytes (b : String)
  | stdErr (e : Option StdError)
  | err (e : Err)
  | panicVal (p : String)
end

/-- The `errs.Info` map, as an association list with unique keys. -/
abbrev Info := List (String × InfoVal)

/-- Go `info[key] = val`: overwrite the entry when the key is present, add it otherwise. -/
def Info.set : Info → String → InfoVal → Info
  | [], k, v => [(k, v)]
  | (k0, v0) :: rest, k, v =>
    if k0 = k then (k, v) :: rest else (k0, v0) :: Info.set rest k v

/-- Go `info[key]`. -/
def Info.get : Info → String → Option InfoVal
  | [], _ => none
  | (k0, v0) :: rest, k => if k0 = k then some v0 else Info.get rest k

namespace Err

def Message : Err → String
  | .mk m _ _ => m

def StdError : Err → Option Elmo.StdError
  | .mk _ e _ => e

def Info : Err → Elmo.Info
  | .mk _ _ i => i

/-- `StdErrorMessage`: the wrapped error's text, `""` when there is none. -/
def StdErrorMessage : Err → String
  | .mk _ none _ => ""
  | .mk _ (some e) _ => e

end Err

/-- `errs.newErr` (stack and time left out, see the header). -/
def newErr (message : String) (stdErr : Option StdError) (info : Info) : Err :=
  .mk message stdErr info

/-- `errs.NewError(message)` as `Shard.go` calls it: no metadata. -/
def NewError (message : String) : Err := newErr message none []

/-- `errs.NewErrorWithInfo(message, info)`. -/
def NewErrorWithInfo (message : String) (info : Info) : Err := newErr message none info

/-- `errs.NewStdError(stdErr)` as `Shard.go` calls it: no metadata. -/
def NewStdError (stdErr : Option StdError) : Err := newErr "" stdErr []

/-- `errs.NewStdErrorWithInfo(stdErr, info)`. -/
def NewStdErrorWithInfo (stdErr : Option StdError) (info : Info) : Err := newErr "" stdErr info

/-! ## strings -/

/-- `strings.HasPrefix(s, p)`. -/
def HasPrefix (s p : String) : Bool := p.toList.isPrefixOf s.toList

/-- Does the character list `sub` occur in `s` as a contiguous block? -/
def containsChars (sub : List Char) : List Char → Bool
  | [] => sub.isEmpty
  | c :: cs => sub.isPrefixOf (c :: cs) || containsChars sub cs

/-- `strings.Contains(s, sub)`. -/
def Contains (s sub : String) : Bool := containsChars sub.toList s.toList

/-! ## Argument normalizer -/

/-- The body of the loop of `fixArgs` for one argument: a value of kind
`reflect.String` becomes the plain `string` with the same text, and then nil
when that string is empty; any other kind falls through the `switch`. -/
def fixArg : Arg → Arg
  | .str _ s => if s = "" then .null else .str "string" s
  | a => a

/-- `fixArgs(args)`: rewrites the slice in place; the embedding returns the
rewritten slice. -/
def fixArgs (args : List Arg) : List Arg := args.map fixArg

/-- `errInfo(query, args, infos...)`. -/
def errInfo (query : String) (args : List Arg) (infos : List Info) : Info :=
  infos.foldl (fun info moreInfo => moreInfo.foldl (fun acc kv => Info.set acc kv.1 kv.2) info)
    [("Query", .str query), ("Args", .args args)]

/-! ## database/sql: results, row streams, connections -/

/-- A `sql.Result`: each accessor returns a value together with an error. -/
structure Result where
  LastInsertId : Int × Option StdError
  RowsAffected : Int × Option StdError

/-- A `sql.RawBytes` after `Scan`: `none` is the nil slice of a NULL column. -/
abbrev Cell := Option String

/-- One row as the driver delivers it. -/
inductive Row where
  /-- a row whose values all convert to `sql.RawBytes` -/
  | cells (cs : List Cell)
  /-- a row on which `Scan` fails with the given conversion error -/
  | unscannable (e : StdError)
  deriving DecidableEq, Repr

/-- `rows.Scan(dest...)` with `ndest` destinations of type `*sql.RawBytes`:
`database/sql` rejects a destination count that differs from the number of
values of the row, then converts value by value. -/
def Row.Scan (r : Row) (ndest : Nat) : Except StdError (List Cell) :=
  match r with
  | .unscannable e => .error e
  | .cells cs =>
    if cs.length ≠ ndest then
      .error ("sql: expected " ++ toString cs.length ++ " destination arguments in Scan, not "
        ++ toString ndest)
    else .ok cs

/-- A `*sql.Rows`: the result of `Columns()`, the rows `Next()` delivers before
it returns false, and the error `Err()` reports once `Next()` has returned false. -/
structure Rows where
  Columns : Except StdError (List String)
  rows : List Row
  Err : Option StdError

/-- The `Conn` interface. -/
structure Conn where
  Exec : String → List Arg → Except StdError Result
  Query : String → List Arg → Except StdError Rows

/-- A `*sql.Tx`: a `Conn` that can also be committed or rolled back. -/
structure Tx extends Conn where
  Commit : Option StdError
  Rollback : Option StdError

/-- A `*sql.DB`: a `Conn` that can also be pinged and can begin a transaction. -/
structure DB extends Conn where
  Ping : Option StdError
  Begin : Except StdError Tx

/-- The `Shard` struct; `db` is nil for transaction shards. -/
structure Shard where
  DBName : String
  db : Option DB
  conn : Conn

def NewShard (DBName : String) (db : DB) : Except Err Shard :=
  match db.Ping with
  | some err => .error (NewStdError (some err))
  | none => .ok ⟨DBName, some db, db.toConn⟩

/-! ## Transaction coordinator -/

/-- How a Go call ends: it returns its `errs.Err` result, or it panics. -/
inductive Exit where
  | returned (err : Option Err)
  | panicked (p : String)

/-- The `TxFunc` type. -/
abbrev TxFunc := Shard → Exit

/-- What `Transact` does to the outside world, in order. -/
inductive Event where
  | begin
  | body (shard : Shard)
  | commit
  | rollback
  | log (e : Err)

/-- `Shard.Transact`.  The deferred function calls `recover()`: when the body
panics with `p` it rolls back, logs, and, the panic being recovered, `Transact`
returns the zero value of its unnamed result. -/
def Shard.Transact (s : Shard) (txFunc : TxFunc) : Exit × List Event :=
  match s.db with
  | none => (.returned (some (NewError "This Shard is missing db")), [])
  | some db =>
    match db.Begin with
    | .error stdErr => (.returned (some (NewStdError (some stdErr))), [.begin])
    | .ok conn =>
      let shard : Shard := ⟨s.DBName, none, conn.toConn⟩
      match txFunc shard with
      | .panicked panicErr =>
        let rbErr := conn.Rollback
        (.returned none,
          [.begin, .body shard, .rollback,
           .log (NewStdErrorWithInfo rbErr
             [("Description", .str "Panic during sql transcation"),
              ("PanicErr", .panicVal panicErr)])])
      | .returned (some err) =>
        match conn.Rollback with
        | some rbErr =>
          (.returned (some (NewErrorWithInfo "txFunc has error"
              [("TxFuncError", .err err), ("TxRollbackError", .stdErr (some rbErr))])),
            [.begin, .body shard, .rollback])
        | none => (.returned (some err), [.begin, .body shard, .rollback])
      | .returned none =>
        match conn.Commit with
        | some stdErr =>
          (.returned (some (NewStdErrorWithInfo (some stdErr)
              [("Description", .str "Could not commit transaction")])),
            [.begin, .body shard, .commit])
        | none => (.returned none, [.begin, .body shard, .commit])

/-- Number of commits in a trace. -/
def commits : List Event → Nat
  | [] => 0
  | .commit :: es => commits es + 1
  | _ :: es => commits es

/-- Number of rollbacks in a trace. -/
def rollbacks : List Event → Nat
  | [] => 0
  | .rollback :: es => rollbacks es + 1
  | _ :: es => rollbacks es

/-! ## Query / Exec and the policies built on them -/

/-- `Shard.Query`: the arguments are fixed in place, then handed to the driver. -/
def Shard.Query (s : Shard) (query : String) (args : List Arg) : Except Err Rows :=
  match s.conn.Query query (fixArgs args) with
  | .error stdErr => .error (NewStdErrorWithInfo (some stdErr) (errInfo query (fixArgs args) []))
  | .ok rows => .ok rows

/-- `Shard.Exec`. -/
def Shard.Exec (s : Shard) (query : String) (args : List Arg) : Except Err Result :=
  match s.conn.Exec query (fixArgs args) with
  | .error stdErr => .error (NewStdErrorWithInfo (some stdErr) (errInfo query (fixArgs args) []))
  | .ok res => .ok res

def IsDuplicateExecError (err : Err) : Bool :=
  let str := err.StdErrorMessage
  HasPrefix str "Error 1060: Duplicate column name" ||
    HasPrefix str "Error 1061: Duplicate key name" ||
    HasPrefix str "Error 1050: Table" ||
    HasPrefix str "Error 1022: Can't write; duplicate key in table" ||
    HasPrefix str "Error 1062: Duplicate entry"

/-- `Shard.ExecIgnoreDuplicateError`, returning the pair `(res, err)`. -/
def Shard.ExecIgnoreDuplicateError (s : Shard) (query : String) (args : List Arg) :
    Option Result × Option Err :=
  match s.Exec query args with
  | .ok res => (some res, none)
  | .error err => if IsDuplicateExecError err then (none, none) else (none, some err)

/-- `Shard.Update`, returning the pair `(rowsAffected, err)`.  After `Exec` the
caller's slice holds the fixed arguments, which is what `errInfo` records. -/
def Shard.Update (s : Shard) (query : String) (args : List Arg) : Int × Option Err :=
  match s.Exec query args with
  | .error err => (0, some err)
  | .ok res =>
    match res.RowsAffected with
    | (rowsAffected, some stdErr) =>
      (rowsAffected, some (NewStdErrorWithInfo (some stdErr) (errInfo query (fixArgs args) [])))
    | (rowsAffected, none) => (rowsAffected, none)

/-- `Shard.UpdateNum`. -/
def Shard.UpdateNum (s : Shard) (num : Int) (query : String) (args : List Arg) : Option Err :=
  match s.Update query args with
  | (_, some err) => some err
  | (rowsAffected, none) =>
    if rowsAffected ≠ num then
      some (NewErrorWithInfo "UpdateNum affected unexpected number of rows"
        (errInfo query (fixArgs args)
          [[("ExpectedRows", .num num), ("AffectedRows", .num rowsAffected)]]))
    else none

def Shard.UpdateOne (s : Shard) (query : String) (args : List Arg) : Option Err :=
  s.UpdateNum 1 query args

/-- `Shard.Insert`, returning the pair `(id, err)`. -/
def Shard.Insert (s : Shard) (query : String) (args : List Arg) : Int × Option Err :=
  match s.Exec query args with
  | .error err => (0, some err)
  | .ok res =>
    match res.LastInsertId with
    | (id, some stdErr) =>
      (id, some (NewStdErrorWithInfo (some stdErr) (errInfo query (fixArgs args) [])))
    | (id, none) => (id, none)

def Shard.InsertIgnoreID (s : Shard) (query : String) (args : List Arg) : Option Err :=
  (s.Insert query args).2

def IsDuplicateEntryError (err : Err) : Bool :=
  let str := err.StdErrorMessage
  Contains str "Duplicate entry"

def Shard.InsertIgnoreDuplicates (s : Shard) (query : String) (args : List Arg) : Option Err :=
  match (s.Insert query args).2 with
  | some err => if IsDuplicateEntryError err then none else some err
  | none => none

/-! ## strconv -/

/-- Result of `strconv.ParseUint` / `ParseInt`: a value, or one of the two
`NumError` causes. -/
inductive NumResult (α : Type) where
  | ok (n : α)
  | syntaxErr
  | rangeErr
  deriving DecidableEq, Repr

/-- `maxUint64`. -/
def maxUint64 : Nat := 2 ^ 64 - 1

/-- The digit loop of `strconv.ParseUint(s, 10, 64)`, `n` being the value
accumulated so far.  An overflow is reported at the digit where it happens,
before the remaining characters are looked at. -/
def parseUintLoop (n : Nat) : List Char → NumResult Nat
  | [] => .ok n
  | c :: cs =>
    if '0' ≤ c ∧ c ≤ '9' then
      let d := c.toNat - '0'.toNat
      if n ≥ maxUint64 / 10 + 1 then .rangeErr
      else
        let n1 := n * 10 + d
        if n1 > maxUint64 then .rangeErr else parseUintLoop n1 cs
    else .syntaxErr

/-- `strconv.ParseUint(s, 10, 64)`. -/
def ParseUint (s : String) : NumResult Nat :=
  if s = "" then .syntaxErr else parseUintLoop 0 s.toList

/-- `strconv.ParseInt(s, 10, 64)`. -/
def ParseInt (s : String) : NumResult Int :=
  match s.toList with
  | [] => .syntaxErr
  | c :: cs =>
    let neg := c = '-'
    let rest := if c = '+' ∨ c = '-' then cs else c :: cs
    match (if rest = [] then NumResult.syntaxErr else parseUintLoop 0 rest) with
    | .syntaxErr => .syntaxErr
    | .rangeErr => .rangeErr
    | .ok un =>
      if ¬ neg ∧ un ≥ 2 ^ 63 then .rangeErr
      else if neg ∧ un > 2 ^ 63 then .rangeErr
      else .ok (if neg then - (un : Int) else (un : Int))

/-- `strconv.ParseBool(s)`; `none` is the syntax error. -/
def ParseBool (s : String) : Option Bool :=
  if s = "1" ∨ s = "t" ∨ s = "T" ∨ s = "TRUE" ∨ s = "true" ∨ s = "True" then some true
  else if s = "0" ∨ s = "f" ∨ s = "F" ∨ s = "FALSE" ∨ s = "false" ∨ s = "False" then some false
  else none

/-- The text of a `*strconv.NumError` (the number is quoted with plain quotes). -/
def numErrorText (fn s cause : String) : StdError :=
  "strconv." ++ fn ++ ": parsing \"" ++ s ++ "\": " ++ cause

/-! ## reflect: kinds, values, structs -/

/-- The integer kinds of one signedness: `int`/`uint` and the sized ones. -/
inductive IntSize where
  | word | b8 | b16 | b32 | b64
  deriving DecidableEq, Repr

/-- Width in bits; the platform word (`int`, `uint`) is taken to be 64 bits. -/
def IntSize.bits : IntSize → Nat
  | .word => 64
  | .b8 => 8
  | .b16 => 16
  | .b32 => 32
  | .b64 => 64

/-- The kinds `scanColumnValue` has no case for (slices apart). -/
inductive OtherKind where
  | Uintptr | Float32 | Float64 | Complex64 | Complex128 | Array | Chan | Func
  | Interface | Map | Ptr | Struct | UnsafePointer
  deriving DecidableEq, Repr

/-- `reflect.Kind.String()` on those kinds. -/
def OtherKind.String : OtherKind → String
  | .Uintptr => "uintptr"
  | .Float32 => "float32"
  | .Float64 => "float64"
  | .Complex64 => "complex64"
  | .Complex128 => "complex128"
  | .Array => "array"
  | .Chan => "chan"
  | .Func => "func"
  | .Interface => "interface"
  | .Map => "map"
  | .Ptr => "ptr"
  | .Struct => "struct"
  | .UnsafePointer => "unsafe.Pointer"

/-- The value a `reflect.Value` of a struct field or slice element holds, by kind.
Values of the kinds the mapper cannot write carry no content. -/
inductive Value where
  | string (s : String)
  | uint (w : IntSize) (n : Nat)
  | int (w : IntSize) (i : Int)
  | bool (b : Bool)
  /-- a slice whose element kind is `Uint8`; `none` is the nil slice -/
  | bytes (b : Option String)
  /-- a slice of any other element type -/
  | slice
  | other (k : OtherKind)
  deriving DecidableEq, Repr

/-- The type of a struct field or slice element, by kind. -/
inductive Typ where
  | string
  | uint (w : IntSize)
  | int (w : IntSize)
  | bool
  | bytes
  | slice
  | other (k : OtherKind)
  deriving DecidableEq, Repr

/-- The zero value of a type (`reflect.New(t).Elem()`). -/
def Typ.zero : Typ → Value
  | .string => .string ""
  | .uint w => .uint w 0
  | .int w => .int w 0
  | .bool => .bool false
  | .bytes => .bytes none
  | .slice => .slice
  | .other k => .other k

/-- Go `uintN(x)`: the low `bits` bits. -/
def wrapUint (bits : Nat) (x : Nat) : Nat := x % 2 ^ bits

/-- Go `intN(x)`: two-complement truncation to `bits` bits. -/
def wrapInt (bits : Nat) (x : Int) : Int :=
  (x + 2 ^ (bits - 1)) % 2 ^ bits - 2 ^ (bits - 1)

/-- How a call of the mapper ends: no error, an `errs.Err`, or a panic raised
inside `reflect`. -/
inductive Status where
  | ok
  | err (e : Err)
  | panic (p : String)

def Status.isOk : Status → Bool
  | .ok => true
  | _ => false

def Status.isErr : Status → Bool
  | .err _ => true
  | _ => false

/-- The panic of `reflect` when a `Set*` method is called on a value that is
not settable (a field obtained through an unexported name). -/
def notSettable (method : String) : String :=
  "reflect: reflect.Value." ++ method ++ " using value obtained using unexported field"

/-- `scanColumnValue(column, reflectVal, value, query, args)`.  `settable` tells
whether `reflectVal.CanSet()`, `cur` is the value it holds; the result is the
value it holds afterwards and how the call ended. -/
def scanColumnValue (column : String) (settable : Bool) (cur : Value) (value : Cell)
    (query : String) (args : List Arg) : Value × Status :=
  match value with
  | none => (cur, .ok) -- Leave struct field empty
  | some bytes =>
    match cur with
    | .string _ =>
      if settable then (.string bytes, .ok) else (cur, .panic (notSettable "SetString"))
    | .uint w _ =>
      match ParseUint bytes with
      | .syntaxErr =>
        (cur, .err (NewStdErrorWithInfo (some (numErrorText "ParseUint" bytes "invalid syntax"))
          (errInfo query args [[("Bytes", .bytes bytes)]])))
      | .rangeErr =>
        (cur, .err (NewStdErrorWithInfo
          (some (numErrorText "ParseUint" bytes "value out of range"))
          (errInfo query args [[("Bytes", .bytes bytes)]])))
      | .ok uintVal =>
        if settable then (.uint w (wrapUint w.bits uintVal), .ok)
        else (cur, .panic (notSettable "SetUint"))
    | .int w _ =>
      match ParseInt bytes with
      | .syntaxErr =>
        (cur, .err (NewStdErrorWithInfo (some (numErrorText "ParseInt" bytes "invalid syntax"))
          (errInfo query args [[("Bytes", .bytes bytes)]])))
      | .rangeErr =>
        (cur, .err (NewStdErrorWithInfo
          (some (numErrorText "ParseInt" bytes "value out of range"))
          (errInfo query args [[("Bytes", .bytes bytes)]])))
      | .ok intVal =>
        if settable then (.int w (wrapInt w.bits intVal), .ok)
        else (cur, .panic (notSettable "SetInt"))
    | .bool _ =>
      match ParseBool bytes with
      | none =>
        (cur, .err (NewStdErrorWithInfo (some (numErrorText "ParseBool" bytes "invalid syntax"))
          (errInfo query args [[("Bytes", .bytes bytes)]])))
      | some boolVal =>
        if settable then (.bool boolVal, .ok) else (cur, .panic (notSettable "SetBool"))
    | .bytes _ =>
      -- byte slice
      if settable then (.bytes (some bytes), .ok) else (cur, .panic (notSettable "SetBytes"))
    | .slice =>
      -- the kind is Slice, so SetBytes is called; reflect refuses the element type
      if settable then (cur, .panic "reflect.Value.SetBytes of non-byte slice")
      else (cur, .panic (notSettable "SetBytes"))
    | .other k =>
      (cur, .err (NewErrorWithInfo ("Bad row value for column " ++ column ++ ": " ++ k.String)
        (errInfo query args [])))

/-- A struct field: its name, whether the name is exported (only then is the
field settable through `reflect`), and its value. -/
structure Field where
  name : String
  exported : Bool
  val : Value
  deriving DecidableEq, Repr

/-- A (flat) struct value: its fields in declaration order. -/
abbrev Struct := List Field

/-- `v.FieldByName(column)`; `none` is the invalid `reflect.Value`. -/
def FieldByName (st : Struct) (column : String) : Option Field :=
  st.find? (fun f => f.name = column)

/-- Store `v` in the field named `column` (the write `scanColumnValue` performs
through the `reflect.Value` that `FieldByName` returned). -/
def setField : Struct → String → Value → Struct
  | [], _, _ => []
  | f :: fs, column, v =>
    if f.name = column then { f with val := v } :: fs else f :: setField fs column v

/-- The second loop of `structFromRow`, over the columns paired with the scanned
cells. -/
def structFromRowLoop (st : Struct) (query : String) (args : List Arg) :
    List (String × Cell) → Struct × Status
  | [] => (st, .ok)
  | (column, value) :: rest =>
    match FieldByName st column with
    | none => structFromRowLoop st query args rest
    | some structFieldValue =>
      match scanColumnValue column structFieldValue.exported structFieldValue.val value
          query args with
      | (v, .ok) => structFromRowLoop (setField st column v) query args rest
      | (_, status) => (st, status)

/-- `structFromRow(outputItemStructVal, columns, rows, query, args)` on the
current row of the stream: the struct as it is left, and how the call ended. -/
def structFromRow (outputItemStructVal : Struct) (columns : List String) (row : Row)
    (query : String) (args : List Arg) : Struct × Status :=
  match row.Scan columns.length with
  | .error stdErr =>
    (outputItemStructVal, .err (NewStdErrorWithInfo (some stdErr) (errInfo query args [])))
  | .ok vals => structFromRowLoop outputItemStructVal query args (columns.zip vals)

/-! ## Row mapper: Select -/

/-- A struct type: the declared fields, in order. -/
structure FieldDecl where
  name : String
  exported : Bool
  typ : Typ
  deriving DecidableEq, Repr

abbrev StructType := List FieldDecl

/-- The zero struct (`reflect.New(T).Elem()`). -/
def StructType.zero (T : StructType) : Struct :=
  T.map (fun d => ⟨d.name, d.exported, d.typ.zero⟩)

/-- The element type of the destination slice of `Select`. -/
inductive ElemType where
  /-- `*T` for a struct type `T`: the `isStruct` case -/
  | ptrToStruct (T : StructType)
  /-- any other element type -/
  | nonStruct (t : Typ)
  deriving DecidableEq, Repr

/-- An element of the destination slice. -/
inductive Item where
  | structPtr (st : Struct)
  | scalar (v : Value)
  deriving DecidableEq, Repr

/-- The `output interface{}` of `Select`, as `reflect` sees it. -/
inductive SelectDest where
  /-- `reflect.ValueOf(output).Kind() != reflect.Ptr` (the nil interface included) -/
  | notPointer
  /-- a pointer whose `reflect.Indirect` is not of kind `Slice` -/
  | ptrToNonSlice
  /-- a pointer to a slice holding `items` -/
  | ptrToSlice (elem : ElemType) (items : List Item)
  deriving DecidableEq, Repr

/-- The `for rows.Next()` loop of the struct branch of `Select`: `acc` is the
slice so far, the list holds the rows still to come. -/
def selectStructLoop (T : StructType) (columns : List String) (query : String)
    (args : List Arg) (acc : List Item) : List Row → List Item × Status
  | [] => (acc, .ok)
  | row :: rest =>
    match structFromRow T.zero columns row query args with
    | (outputItemStructVal, .ok) =>
      selectStructLoop T columns query args (acc ++ [.structPtr outputItemStructVal]) rest
    | (_, status) => (acc, status)

/-- The `for rows.Next()` loop of the non-struct branch of `Select`. -/
def selectScalarLoop (t : Typ) (column : String) (query : String)
    (args : List Arg) (acc : List Item) : List Row → List Item × Status
  | [] => (acc, .ok)
  | row :: rest =>
    match row.Scan 1 with
    | .error stdErr =>
      (acc, .err (NewStdErrorWithInfo (some stdErr) (errInfo query args [])))
    | .ok vals =>
      match scanColumnValue column true t.zero (vals.headD none) query args with
      | (outputValue, .ok) =>
        selectScalarLoop t column query args (acc ++ [.scalar outputValue]) rest
      | (_, status) => (acc, status)

/-- The end of `Select`: `stdErr = rows.Err()`, then the test `if err != nil`
on the variable `err`, which is nil whenever a loop has run to its end. -/
def selectTail (stdErr : Option StdError) (err : Option Err) (query : String)
    (args : List Arg) : Status :=
  if err.isSome then .err (NewStdErrorWithInfo stdErr (errInfo query args [])) else .ok

/-- `Shard.Select(output, query, args...)`: the destination as the call leaves
it, and how the call ended. -/
def Shard.Select (s : Shard) (output : SelectDest) (query : String) (args : List Arg) :
    SelectDest × Status :=
  match output with
  | .notPointer =>
    (output, .err (NewErrorWithInfo "Select expects a pointer to a slice of items"
      (errInfo query args [])))
  | .ptrToNonSlice =>
    (output, .err (NewErrorWithInfo "Select expects items to be a slice" (errInfo query args [])))
  | .ptrToSlice elem items =>
    if items.length ≠ 0 then
      (output, .err (NewErrorWithInfo "Select expects items to be empty" (errInfo query args [])))
    else
      match s.Query query args with
      | .error err => (.ptrToSlice elem [], .err err)
      | .ok rows =>
        let args := fixArgs args
        match rows.Columns with
        | .error stdErr =>
          (.ptrToSlice elem [], .err (NewStdErrorWithInfo (some stdErr) (errInfo query args [])))
        | .ok columns =>
          match elem with
          | .ptrToStruct T =>
            match selectStructLoop T columns query args [] rows.rows with
            | (out, .ok) => (.ptrToSlice elem out, selectTail rows.Err none query args)
            | (out, status) => (.ptrToSlice elem out, status)
          | .nonStruct t =>
            if columns.length ≠ 1 then
              (.ptrToSlice elem [], .err (NewErrorWithInfo
                "Select expected single column in select statement for slice of non-struct values"
                (errInfo query args [])))
            else
              match selectScalarLoop t (columns.headD "") query args [] rows.rows with
              | (out, .ok) => (.ptrToSlice elem out, selectTail rows.Err none query args)
              | (out, status) => (.ptrToSlice elem out, status)

/-! ## Row mapper: SelectOne -/

def scanOneTypeError : String :=
  "elmo/sql.SelectOne: expects a **struct, e.g var person *Person; c.SelectOne(&person, sql)"

/-- The `output interface{}` of `SelectOne`, as `reflect` sees it. -/
inductive OneDest where
  /-- the nil interface: `!reflect.ValueOf(output).IsValid()` -/
  | invalid
  /-- a value whose kind is not `Ptr` -/
  | notPointer
  /-- a pointer whose `Elem()` is not of kind `Ptr` (a nil pointer included) -/
  | ptrToNonPointer
  /-- a pointer to a `*T`, `T` a struct type; `cur` is `none` when the `*T` is nil -/
  | ptrToStructPtr (T : StructType) (cur : Option Struct)
  /-- a pointer to a pointer to something that is not a struct -/
  | ptrToOtherPtr (isNil : Bool)
  deriving DecidableEq, Repr

/-- `Shard.scanOne(output, query, args...)`: `found`, how the call ended, and
the destination as the call leaves it. -/
def Shard.scanOne (s : Shard) (output : OneDest) (query : String) (args : List Arg) :
    Bool × Status × OneDest :=
  match output with
  | .invalid => (false, .err (NewError scanOneTypeError), output)
  | .notPointer => (false, .err (NewError scanOneTypeError), output)
  | .ptrToNonPointer => (false, .err (NewError scanOneTypeError), output)
  | .ptrToOtherPtr _ =>
    match s.Query query args with
    | .error err => (false, .err err, output)
    | .ok rows =>
      let args := fixArgs args
      match rows.Columns with
      | .error stdErr =>
        (false, .err (NewStdErrorWithInfo (some stdErr) (errInfo query args [])), output)
      | .ok columns =>
        match rows.rows with
        | [] => (false, .ok, output)
        | row :: rest =>
          -- structFromRow on a value that is not a struct: Scan, then FieldByName panics
          match row.Scan columns.length with
          | .error stdErr =>
            (false, .err (NewStdErrorWithInfo (some stdErr) (errInfo query args [])),
              .ptrToOtherPtr false)
          | .ok _ =>
            if columns.length ≠ 0 then
              (false, .panic "reflect: call of reflect.Value.FieldByName on non-struct Value",
                .ptrToOtherPtr false)
            else
              match rest with
              | _ :: _ =>
                (false, .err (NewErrorWithInfo "scanOne got multiple rows"
                  (errInfo query args [])), .ptrToOtherPtr false)
              | [] =>
                match rows.Err with
                | some stdErr =>
                  (false, .err (NewStdErrorWithInfo (some stdErr) (errInfo query args [])),
                    .ptrToOtherPtr false)
                | none => (true, .ok, .ptrToOtherPtr false)
  | .ptrToStructPtr T cur =>
    match s.Query query args with
    | .error err => (false, .err err, output)
    | .ok rows =>
      let args := fixArgs args
      match rows.Columns with
      | .error stdErr =>
        (false, .err (NewStdErrorWithInfo (some stdErr) (errInfo query args [])), output)
      | .ok columns =>
        match rows.rows with
        | [] => (false, .ok, output)
        | row :: rest =>
          let vStruct : Struct :=
            match cur with
            | none => T.zero
            | some st => st
          match structFromRow vStruct columns row query args with
          | (st, .ok) =>
            match rest with
            | _ :: _ =>
              (false, .err (NewErrorWithInfo "scanOne got multiple rows"
                (errInfo query args [])), .ptrToStructPtr T (some st))
            | [] =>
              match rows.Err with
              | some stdErr =>
                (false, .err (NewStdErrorWithInfo (some stdErr) (errInfo query args [])),
                  .ptrToStructPtr T (some st))
              | none => (true, .ok, .ptrToStructPtr T (some st))
          | (st, status) => (false, status, .ptrToStructPtr T (some st))

/-- `Shard.SelectOne`. -/
def Shard.SelectOne (s : Shard) (output : OneDest) (query : String) (args : List Arg) :
    Bool × Status × OneDest :=
  s.scanOne output query args

/-- Is the argument of kind `reflect.String`? -/
def Arg.isStringKind : Arg → Bool
  | .str _ _ => true
  | _ => false

/-! ## Sample connections and destinations -/

/-- A connection on which every statement fails with the driver message `m`. -/
def failingConn (m : StdError) : Conn :=
  ⟨fun _ _ => .error m, fun _ _ => .error m⟩

/-- A connection on which every statement affects `c` rows and every query
returns the stream `rows`. -/
def fixedConn (c : Int) (rows : Rows) : Conn :=
  ⟨fun _ _ => .ok ⟨(0, none), (c, none)⟩, fun _ _ => .ok rows⟩

/-- A shard over a plain connection, as `Transact` hands one to its body. -/
def connShard (conn : Conn) : Shard := ⟨"main", none, conn⟩

/-- An empty stream with a column `Name`. -/
def noRows : Rows := ⟨.ok ["Name"], [], none⟩

/-- A transaction whose commit and rollback succeed. -/
def goodTx : Tx := ⟨fixedConn 1 noRows, none, none⟩

/-- A shard with a database whose `Begin` yields `goodTx`. -/
def dbShard : Shard := ⟨"main", some ⟨fixedConn 1 noRows, none, .ok goodTx⟩, fixedConn 1 noRows⟩

/-- The struct type `struct { Name string; Age uint8 }`. -/
def personType : StructType := [⟨"Name", true, .string⟩, ⟨"Age", true, .uint .b8⟩]

/-- Two rows over the columns `Name`, `Age`, `Extra`. -/
def peopleRows : Rows :=
  ⟨.ok ["Name", "Age", "Extra"],
   [.cells [some "alice", some "30", some "x"], .cells [some "bob", none, none]], none⟩

/-- A stream that delivered no row and then reports a driver error. -/
def brokenRows : Rows := ⟨.ok ["Name"], [], some "driver: bad connection"⟩

/-! ## Scalar fetch: queryOne -/

/-- The variable `queryOne` scans into: `*int64`, `*string` or `*uint`, with
the value it holds. -/
inductive Out where
  | int64 (n : Int)
  | string (s : String)
  | uint (n : Nat)
  deriving DecidableEq, Repr

/-- `rows.Scan(out)` with the single destination `out`: `database/sql` rejects
a row that does not have exactly one value, refuses NULL for these three
destination types, copies the text into a `*string`, and parses it with
`strconv` for the integer destinations.  On an error `out` keeps its value. -/
def Row.ScanOut (r : Row) (out : Out) : Except StdError Out :=
  match r.Scan 1 with
  | .error e => .error e
  | .ok cs =>
    match cs.headD none, out with
    | none, .int64 _ => .error "converting NULL to int64 is unsupported"
    | none, .string _ => .error "converting NULL to string is unsupported"
    | none, .uint _ => .error "converting NULL to uint is unsupported"
    | some bytes, .string _ => .ok (.string bytes)
    | some bytes, .int64 _ =>
      match ParseInt bytes with
      | .ok n => .ok (.int64 n)
      | .syntaxErr => .error (numErrorText "ParseInt" bytes "invalid syntax")
      | .rangeErr => .error (numErrorText "ParseInt" bytes "value out of range")
    | some bytes, .uint _ =>
      match ParseUint bytes with
      | .ok n => .ok (.uint n)
      | .syntaxErr => .error (numErrorText "ParseUint" bytes "invalid syntax")
      | .rangeErr => .error (numErrorText "ParseUint" bytes "value out of range")

/-- `Shard.queryOne(query, args, out)`: `found`, the error, and `out` as the
call leaves it. -/
def Shard.queryOne (s : Shard) (query : String) (args : List Arg) (out : Out) :
    Bool × Option Err × Out :=
  match s.Query query args with
  | .error err => (false, some err, out)
  | .ok rows =>
    let args := fixArgs args
    match rows.rows with
    | row :: rest =>
      match row.ScanOut out with
      | .error stdErr =>
        (false, some (NewStdErrorWithInfo (some stdErr) (errInfo query args [])), out)
      | .ok out1 =>
        match rest with
        | _ :: _ =>
          (false, some (NewErrorWithInfo "queryOne query returned too many rows"
            (errInfo query args [])), out1)
        | [] =>
          match rows.Err with
          | some stdErr =>
            (true, some (NewStdErrorWithInfo (some stdErr) (errInfo query args [])), out1)
          | none => (true, none, out1)
    | [] =>
      match rows.Err with
      | some stdErr =>
        (false, some (NewStdErrorWithInfo (some stdErr) (errInfo query args [])), out)
      | none => (false, none, out)

/-- `Shard.SelectInt`: `(num, found, err)`. -/
def Shard.SelectInt (s : Shard) (query : String) (args : List Arg) : Out × Bool × Option Err :=
  match s.queryOne query args (.int64 0) with
  | (found, err, num) => (num, found, err)

/-- `Shard.SelectString`: `(str, found, err)`. -/
def Shard.SelectString (s : Shard) (query : String) (args : List Arg) :
    Out × Bool × Option Err :=
  match s.queryOne query args (.string "") with
  | (found, err, str) => (str, found, err)

/-- `Shard.SelectUint`: `(num, found, err)`. -/
def Shard.SelectUint (s : Shard) (query : String) (args : List Arg) : Out × Bool × Option Err :=
  match s.queryOne query args (.uint 0) with
  | (found, err, num) => (num, found, err)

/-! ## Canonical text of values -/

/-- The character of a decimal digit. -/
def digitChar (d : Nat) : Char := Char.ofNat (48 + d)

/-- The decimal digits of `n`, most significant first, without leading zeros
(what `strconv.FormatUint(n, 10)` produces). -/
def decimalDigits (n : Nat) : List Char :=
  if n < 10 then [digitChar n] else decimalDigits (n / 10) ++ [digitChar (n % 10)]
decreasing_by omega

/-- Decimal text of an unsigned integer. -/
def formatUint (n : Nat) : String := String.mk (decimalDigits n)

/-- Decimal text of a signed integer (what `strconv.FormatInt(i, 10)` produces). -/
def formatInt (i : Int) : String :=
  if i < 0 then String.mk ('-' :: decimalDigits i.natAbs) else String.mk (decimalDigits i.natAbs)

/-- Text of a boolean (what `strconv.FormatBool` produces). -/
def formatBool (b : Bool) : String := if b then "true" else "false"

/-! ## random: Uid -/

/-- The alphabet of `base64.URLEncoding`. -/
def encodeURL : List Char :=
  "ABCDEFGHIJKLMNOPQRSTUVWXYZabcdefghijklmnopqrstuvwxyz0123456789-_".toList

/-- The character that encodes the 6-bit value `v`. -/
def encodeChar (v : Nat) : Char := encodeURL.getD v 'A'

/-- `base64.URLEncoding.EncodeToString(src)`: three bytes give four characters,
a remainder of one or two bytes is padded with `=`. -/
def EncodeToString : List Nat → List Char
  | a :: b :: c :: rest =>
    encodeChar (a / 4) :: encodeChar (a % 4 * 16 + b / 16) ::
      encodeChar (b % 16 * 4 + c / 64) :: encodeChar (c % 64) :: EncodeToString rest
  | [a, b] => [encodeChar (a / 4), encodeChar (a % 4 * 16 + b / 16), encodeChar (b % 16 * 4), '=']
  | [a] => [encodeChar (a / 4), encodeChar (a % 4 * 16), '=', '=']
  | [] => []

/-- The random source `crypto/rand.Reader`: the error its reads return, if
any, and the bytes it yields. -/
structure Reader where
  err : Option StdError
  byte : Nat → Nat

/-- `io.ReadFull(rand, buf)` for a buffer of `n` bytes: an empty buffer is
filled without a read. -/
def ReadFull (rand : Reader) (n : Nat) : Except StdError (List Nat) :=
  if n = 0 then .ok []
  else
    match rand.err with
    | some stdErr => .error stdErr
    | none => .ok ((List.range n).map (fun i => rand.byte i % 256))

/-- `random.Uid(numChars)`: the uid and how the call ended.  Go's `%` truncates
towards zero; `make` panics on a negative length. -/
def Uid (numChars : Int) (rand : Reader) : String × Status :=
  if Int.tmod numChars 4 ≠ 0 then ("", .err (NewError "uid length must be a multiple of 4"))
  else if numChars < 0 then ("", .panic "runtime error: makeslice: len out of range")
  else
    match ReadFull rand numChars.toNat with
    | .error stdErr => ("", .err (NewStdError (some stdErr)))
    | .ok buf => (String.mk (EncodeToString buf), .ok)

/-- A transaction whose rollback fails. -/
def badRollbackTx : Tx := ⟨fixedConn 1 noRows, none, some "driver: bad connection"⟩

/-- A shard with a database whose `Begin` yields `badRollbackTx`. -/
def badRollbackShard : Shard :=
  ⟨"main", some ⟨fixedConn 1 noRows, none, .ok badRollbackTx⟩, fixedConn 1 noRows⟩

/-- One row holding the text `7`, then the end of the stream. -/
def oneNumberRows : Rows := ⟨.ok ["n"], [.cells [some "7"]], none⟩

/-- Two rows of one column each. -/
def twoNumberRows : Rows := ⟨.ok ["n"], [.cells [some "7"], .cells [some "8"]], none⟩

/-- One row whose single cell is NULL, then the end of the stream. -/
def nullRows : Rows := ⟨.ok ["n"], [.cells [none]], none⟩

/-! ## Theorems -/

theorem fixArgs_length (args : List Arg) : (fixArgs args).length = args.length := by
  simp [fixArgs]

theorem fixArgs_getElem? (args : List Arg) (i : Nat) :
    (fixArgs args)[i]? = (args[i]?).map fixArg := by
  simp [fixArgs]

/-- C4: `fixArgs` keeps the length and the positions of the argument list; at
every position an argument of string kind (whatever its type name) becomes nil
when its text is empty and the plain `string` with the same text otherwise, and
an argument of any other kind is left as it is. -/
theorem fixArgs_spec (args : List Arg) :
    (fixArgs args).length = args.length ∧
    ∀ (i : Nat) (a : Arg), args[i]? = some a →
      (∀ typ s, a = Arg.str typ s →
        (fixArgs args)[i]? = some (if s = "" then Arg.null else Arg.str "string" s)) ∧
      (a.isStringKind = false → (fixArgs args)[i]? = some a) := by
  refine ⟨fixArgs_length args, ?_⟩
  intro i a ha
  rw [fixArgs_getElem?, ha]
  constructor
  · intro typ s hs
    subst hs
    simp [fixArg]
  · intro hk
    cases a <;> simp_all [fixArg, Arg.isStringKind]

theorem fixArgs_spec_witness :
    (fixArgs [Arg.str "Foo" "", Arg.str "Foo" "bar", Arg.int "int" 3])[1]?
      = some (Arg.str "string" "bar") := by
  have h := ((fixArgs_spec [Arg.str "Foo" "", Arg.str "Foo" "bar", Arg.int "int" 3]).2 1
    (Arg.str "Foo" "bar") rfl).1 "Foo" "bar" rfl
  simpa using h

theorem Exec_of_fails (s : Shard) (query : String) (args : List Arg) (m : StdError)
    (hfail : s.conn.Exec query (fixArgs args) = .error m) :
    s.Exec query args
      = .error (NewStdErrorWithInfo (some m) (errInfo query (fixArgs args) [])) := by
  simp [Shard.Exec, hfail]

theorem Exec_of_ok (s : Shard) (query : String) (args : List Arg) (res : Result)
    (hexec : s.conn.Exec query (fixArgs args) = .ok res) :
    s.Exec query args = .ok res := by
  simp [Shard.Exec, hexec]

theorem StdErrorMessage_NewStdErrorWithInfo (m : StdError) (info : Info) :
    (NewStdErrorWithInfo (some m) info).StdErrorMessage = m := rfl

/-- C7: when the statement executes and the driver reports `c` affected rows,
`UpdateNum num` returns an error if and only if `c` differs from `num`; this
holds for every `num`, the non-negative ones included. -/
theorem UpdateNum_error_iff (s : Shard) (num : Int) (query : String) (args : List Arg)
    (res : Result) (c : Int)
    (hexec : s.conn.Exec query (fixArgs args) = .ok res)
    (hcount : res.RowsAffected = (c, none)) :
    (s.UpdateNum num query args).isSome = true ↔ c ≠ num := by
  have hE := Exec_of_ok s query args res hexec
  simp only [Shard.UpdateNum, Shard.Update, hE, hcount]
  by_cases h : c = num <;> simp [h]

theorem UpdateNum_error_iff_witness :
    ((connShard (fixedConn 2 noRows)).UpdateNum 3 "UPDATE t SET a = 1" []).isSome = true
      ↔ (2 : Int) ≠ 3 :=
  UpdateNum_error_iff (connShard (fixedConn 2 noRows)) 3 "UPDATE t SET a = 1" []
    ⟨(0, none), (2, none)⟩ 2 rfl rfl

/-- C8: when the execution of a statement fails with driver message `m`,
`ExecIgnoreDuplicateError` returns no error if `m` starts with one of the five
duplicate texts, and otherwise returns exactly the error `Exec` returns. -/
theorem ExecIgnoreDuplicateError_spec (s : Shard) (query : String) (args : List Arg)
    (m : StdError) (hfail : s.conn.Exec query (fixArgs args) = .error m) :
    ((∃ p ∈ ["Error 1060: Duplicate column name", "Error 1061: Duplicate key name",
               "Error 1050: Table", "Error 1022: Can't write; duplicate key in table",
               "Error 1062: Duplicate entry"], HasPrefix m p = true) →
        s.ExecIgnoreDuplicateError query args = (none, none)) ∧
    ((∀ p ∈ ["Error 1060: Duplicate column name", "Error 1061: Duplicate key name",
               "Error 1050: Table", "Error 1022: Can't write; duplicate key in table",
               "Error 1062: Duplicate entry"], HasPrefix m p = false) →
        ∃ e, s.Exec query args = .error e ∧
          s.ExecIgnoreDuplicateError query args = (none, some e)) := by
  have hE := Exec_of_fails s query args m hfail
  constructor
  · intro h
    have hd : IsDuplicateExecError
        (NewStdErrorWithInfo (some m) (errInfo query (fixArgs args) [])) = true := by
      simp only [IsDuplicateExecError, StdErrorMessage_NewStdErrorWithInfo]
      simp only [List.mem_cons, List.mem_singleton, List.not_mem_nil, or_false] at h
      rcases h with ⟨p, hp, hpre⟩
      rcases hp with rfl | rfl | rfl | rfl | rfl <;> simp [hpre]
    simp [Shard.ExecIgnoreDuplicateError, hE, hd]
  · intro h
    have hd : IsDuplicateExecError
        (NewStdErrorWithInfo (some m) (errInfo query (fixArgs args) [])) = false := by
      simp only [IsDuplicateExecError, StdErrorMessage_NewStdErrorWithInfo]
      simp only [List.mem_cons, List.mem_singleton, List.not_mem_nil, or_false,
        forall_eq_or_imp, forall_eq] at h
      simp [h.1, h.2.1, h.2.2.1, h.2.2.2.1, h.2.2.2.2]
    exact ⟨_, hE, by simp [Shard.ExecIgnoreDuplicateError, hE, hd]⟩

theorem ExecIgnoreDuplicateError_spec_witness :
    (connShard (failingConn "Error 1050: Table 't' already exists")).ExecIgnoreDuplicateError
        "CREATE TABLE t (a INT)" [] = (none, none) ∧
    ∃ e, (connShard (failingConn "Error 1064: syntax")).Exec "CREATE TABLE" [] = .error e ∧
      (connShard (failingConn "Error 1064: syntax")).ExecIgnoreDuplicateError "CREATE TABLE" []
        = (none, some e) :=
  ⟨(ExecIgnoreDuplicateError_spec
      (connShard (failingConn "Error 1050: Table 't' already exists"))
      "CREATE TABLE t (a INT)" [] "Error 1050: Table 't' already exists" rfl).1
      ⟨"Error 1050: Table", by simp, by decide⟩,
   (ExecIgnoreDuplicateError_spec (connShard (failingConn "Error 1064: syntax"))
      "CREATE TABLE" [] "Error 1064: syntax" rfl).2 (by decide)⟩

theorem Insert_of_fails (s : Shard) (query : String) (args : List Arg) (m : StdError)
    (hfail : s.conn.Exec query (fixArgs args) = .error m) :
    (s.Insert query args).2
      = some (NewStdErrorWithInfo (some m) (errInfo query (fixArgs args) [])) := by
  simp [Shard.Insert, Exec_of_fails s query args m hfail]

/-- C9, as stated, fails: a statement failing with the duplicate-table message
classifies as duplicate for `IsDuplicateExecError` (and `ExecIgnoreDuplicateError`
returns no error), yet `InsertIgnoreDuplicates` returns the error. -/
theorem InsertIgnoreDuplicates_not_same_table :
    IsDuplicateExecError (NewStdErrorWithInfo (some "Error 1050: Table 't' already exists")
        (errInfo "INSERT INTO t VALUES (1)" [] [])) = true ∧
    ((connShard (failingConn "Error 1050: Table 't' already exists")).ExecIgnoreDuplicateError
        "INSERT INTO t VALUES (1)" []).2.isSome = false ∧
    ((connShard (failingConn "Error 1050: Table 't' already exists")).InsertIgnoreDuplicates
        "INSERT INTO t VALUES (1)" []).isSome = true := by
  refine ⟨by decide, by decide, by decide⟩

/-- C9, amended: when the execution of a statement fails with driver message
`m`, `InsertIgnoreDuplicates` returns no error if and only if `m` contains the
text `Duplicate entry` (the test of `IsDuplicateEntryError`, anywhere in the
message), and otherwise returns exactly the error `Exec` returns. -/
theorem InsertIgnoreDuplicates_spec (s : Shard) (query : String) (args : List Arg)
    (m : StdError) (hfail : s.conn.Exec query (fixArgs args) = .error m) :
    (s.InsertIgnoreDuplicates query args = none ↔ Contains m "Duplicate entry" = true) ∧
    (Contains m "Duplicate entry" = false →
      ∃ e, s.Exec query args = .error e ∧ s.InsertIgnoreDuplicates query args = some e) := by
  have hE := Exec_of_fails s query args m hfail
  have hI := Insert_of_fails s query args m hfail
  have hd : IsDuplicateEntryError
      (NewStdErrorWithInfo (some m) (errInfo query (fixArgs args) []))
        = Contains m "Duplicate entry" := rfl
  constructor
  · simp only [Shard.InsertIgnoreDuplicates, hI, hd]
    cases Contains m "Duplicate entry" <;> simp
  · intro h
    exact ⟨_, hE, by simp [Shard.InsertIgnoreDuplicates, hI, hd, h]⟩

theorem InsertIgnoreDuplicates_spec_witness :
    ((connShard (failingConn "Error 1062: Duplicate entry '1' for key 'PRIMARY'")).InsertIgnoreDuplicates
        "INSERT INTO t VALUES (1)" [] = none ↔
      Contains "Error 1062: Duplicate entry '1' for key 'PRIMARY'" "Duplicate entry" = true) ∧
    ∃ e, (connShard (failingConn "Error 1050: Table 't' already exists")).Exec
        "INSERT INTO t VALUES (1)" [] = .error e ∧
      (connShard (failingConn "Error 1050: Table 't' already exists")).InsertIgnoreDuplicates
        "INSERT INTO t VALUES (1)" [] = some e :=
  ⟨(InsertIgnoreDuplicates_spec
      (connShard (failingConn "Error 1062: Duplicate entry '1' for key 'PRIMARY'"))
      "INSERT INTO t VALUES (1)" [] "Error 1062: Duplicate entry '1' for key 'PRIMARY'" rfl).1,
   (InsertIgnoreDuplicates_spec
      (connShard (failingConn "Error 1050: Table 't' already exists"))
      "INSERT INTO t VALUES (1)" [] "Error 1050: Table 't' already exists" rfl).2 (by decide)⟩

/-- C5: on a shard with a database whose `Begin` succeeds and a body that
returns: if the body returns no error, `Transact` commits exactly once, never
rolls back, and returns no error exactly when the commit succeeds; if the body
returns an error, `Transact` rolls back exactly once, never commits, and
returns a non-nil error. -/
theorem Transact_commit_or_rollback (s : Shard) (db : DB) (tx : Tx) (txFunc : TxFunc)
    (e : Option Err) (hdb : s.db = some db) (hbegin : db.Begin = .ok tx)
    (hbody : txFunc ⟨s.DBName, none, tx.toConn⟩ = .returned e) :
    (e = none →
      commits (s.Transact txFunc).2 = 1 ∧ rollbacks (s.Transact txFunc).2 = 0 ∧
      (∃ r, (s.Transact txFunc).1 = .returned r) ∧
      ((s.Transact txFunc).1 = .returned none ↔ tx.Commit = none)) ∧
    (e ≠ none →
      rollbacks (s.Transact txFunc).2 = 1 ∧ commits (s.Transact txFunc).2 = 0 ∧
      ∃ r, (s.Transact txFunc).1 = .returned (some r)) := by
  constructor
  · intro he
    subst he
    simp only [Shard.Transact, hdb, hbegin, hbody]
    cases hc : tx.Commit <;> simp [commits, rollbacks]
  · intro he
    obtain ⟨err, rfl⟩ := Option.ne_none_iff_exists'.mp he
    simp only [Shard.Transact, hdb, hbegin, hbody]
    cases hr : tx.Rollback <;> simp [commits, rollbacks]

theorem Transact_commit_or_rollback_witness :
    (commits (dbShard.Transact (fun _ => .returned none)).2 = 1 ∧
      rollbacks (dbShard.Transact (fun _ => .returned none)).2 = 0 ∧
      (∃ r, (dbShard.Transact (fun _ => .returned none)).1 = .returned r) ∧
      ((dbShard.Transact (fun _ => .returned none)).1 = .returned none ↔ goodTx.Commit = none)) ∧
    (rollbacks (dbShard.Transact (fun _ => .returned (some (NewError "no")))).2 = 1 ∧
      commits (dbShard.Transact (fun _ => .returned (some (NewError "no")))).2 = 0 ∧
      ∃ r, (dbShard.Transact (fun _ => .returned (some (NewError "no")))).1
        = .returned (some r)) :=
  ⟨(Transact_commit_or_rollback dbShard _ goodTx (fun _ => .returned none) none rfl rfl rfl).1 rfl,
   (Transact_commit_or_rollback dbShard _ goodTx (fun _ => .returned (some (NewError "no")))
      (some (NewError "no")) rfl rfl rfl).2 (by simp)⟩

/-- C6, as stated, fails: with a body that panics with `boom`, `Transact`
returns normally (with the nil error) instead of panicking with `boom`. -/
theorem Transact_panic_not_propagated :
    (dbShard.Transact (fun _ => .panicked "boom")).1 = .returned none ∧
    (dbShard.Transact (fun _ => .panicked "boom")).1 ≠ .panicked "boom" := by
  constructor
  · rfl
  · intro h
    have h2 : (dbShard.Transact (fun _ => .panicked "boom")).1 = .returned none := rfl
    rw [h2] at h
    exact Exit.noConfusion h

/-- C6, amended: on a shard with a database whose `Begin` succeeds and a body
that panics with `p`, `Transact` rolls back exactly once, never commits, logs
one error that wraps the rollback result and records `p`, and recovers the
panic: the call returns to its caller, `p` does not propagate. -/
theorem Transact_panic_recovered (s : Shard) (db : DB) (tx : Tx) (txFunc : TxFunc)
    (p : String) (hdb : s.db = some db) (hbegin : db.Begin = .ok tx)
    (hbody : txFunc ⟨s.DBName, none, tx.toConn⟩ = .panicked p) :
    rollbacks (s.Transact txFunc).2 = 1 ∧ commits (s.Transact txFunc).2 = 0 ∧
    (s.Transact txFunc).2 =
      [.begin, .body ⟨s.DBName, none, tx.toConn⟩, .rollback,
       .log (NewStdErrorWithInfo tx.Rollback
         [("Description", .str "Panic during sql transcation"), ("PanicErr", .panicVal p)])] ∧
    (∃ r, (s.Transact txFunc).1 = .returned r) ∧
    (s.Transact txFunc).1 ≠ .panicked p := by
  simp [Shard.Transact, hdb, hbegin, hbody, commits, rollbacks]

theorem Transact_panic_recovered_witness :
    rollbacks (dbShard.Transact (fun _ => .panicked "boom")).2 = 1 ∧
    commits (dbShard.Transact (fun _ => .panicked "boom")).2 = 0 ∧
    (dbShard.Transact (fun _ => .panicked "boom")).2 =
      [.begin, .body ⟨dbShard.DBName, none, goodTx.toConn⟩, .rollback,
       .log (NewStdErrorWithInfo goodTx.Rollback
         [("Description", .str "Panic during sql transcation"),
          ("PanicErr", .panicVal "boom")])] ∧
    (∃ r, (dbShard.Transact (fun _ => .panicked "boom")).1 = .returned r) ∧
    (dbShard.Transact (fun _ => .panicked "boom")).1 ≠ .panicked "boom" :=
  Transact_panic_recovered dbShard _ goodTx (fun _ => .panicked "boom") "boom" rfl rfl rfl

theorem scanColumnValue_null (column : String) (settable : Bool) (cur : Value)
    (query : String) (args : List Arg) :
    scanColumnValue column settable cur none query args = (cur, .ok) := rfl

theorem FieldByName_setField_ne (st : Struct) (column n : String) (v : Value)
    (hne : column ≠ n) : FieldByName (setField st column v) n = FieldByName st n := by
  induction st with
  | nil => rfl
  | cons f fs ih =>
    have hne2 : ¬ n = column := fun h => hne h.symm
    unfold setField
    by_cases hf : f.name = column
    · have hfn : ¬ f.name = n := fun h => hne (hf.symm.trans h)
      simp [FieldByName, List.find?, hf, hne, hfn]
    · by_cases hn : f.name = n
      · simp [FieldByName, List.find?, hf, hn, hne2]
      · simpa [FieldByName, List.find?, hf, hn] using ih

theorem setField_self (st : Struct) (column : String) (f : Field)
    (hf : FieldByName st column = some f) : setField st column f.val = st := by
  induction st with
  | nil => rfl
  | cons g gs ih =>
    unfold setField
    by_cases hg : g.name = column
    · simp [FieldByName, List.find?, hg] at hf
      subst hf
      subst hg
      simp
    · simp only [FieldByName, List.find?, hg, decide_False] at hf
      simp [hg, ih hf]

/-- The mapping loop leaves the field named `n` as it is when every cell that
is paired with a column named `n` is null. -/
theorem structFromRowLoop_null_keeps (n : String) (query : String) (args : List Arg)
    (pairs : List (String × Cell)) (hnull : ∀ v, (n, v) ∈ pairs → v = none) (st : Struct) :
    FieldByName (structFromRowLoop st query args pairs).1 n = FieldByName st n := by
  induction pairs generalizing st with
  | nil => rfl
  | cons pv rest ih =>
    obtain ⟨column, value⟩ := pv
    have hrest : ∀ v, (n, v) ∈ rest → v = none :=
      fun v hv => hnull v (List.mem_cons_of_mem _ hv)
    cases hf : FieldByName st column with
    | none =>
      simp only [structFromRowLoop, hf]
      exact ih hrest st
    | some f =>
      by_cases hcn : column = n
      · have hv : value = none := hnull value (by simp [hcn])
        subst hv
        simp only [structFromRowLoop, hf, scanColumnValue_null]
        rw [setField_self st column f hf]
        exact ih hrest st
      · cases hs : scanColumnValue column f.exported f.val value query args with
        | mk v status =>
          cases status with
          | ok =>
            simp only [structFromRowLoop, hf, hs]
            rw [ih hrest (setField st column v)]
            exact FieldByName_setField_ne st column n v hcn
          | err e => simp only [structFromRowLoop, hf, hs]
          | panic p => simp only [structFromRowLoop, hf, hs]

theorem structFromRow_null_keeps (n : String) (st : Struct) (columns : List String)
    (cs : List Cell) (query : String) (args : List Arg)
    (hnull : ∀ v, (n, v) ∈ columns.zip cs → v = none) :
    FieldByName (structFromRow st columns (.cells cs) query args).1 n = FieldByName st n := by
  unfold structFromRow Row.Scan
  by_cases hlen : cs.length = columns.length
  · simp only [hlen, ne_eq, not_true_eq_false, if_false]
    exact structFromRowLoop_null_keeps n query args _ hnull st
  · simp [hlen]

theorem Query_of_ok (s : Shard) (query : String) (args : List Arg) (rows : Rows)
    (hq : s.conn.Query query (fixArgs args) = .ok rows) :
    s.Query query args = .ok rows := by
  simp [Shard.Query, hq]

/-- With a struct destination, a successful query and a first row, the
destination `scanOne` leaves behind holds the struct `structFromRow` produced. -/
theorem scanOne_dest_of_row (s : Shard) (T : StructType) (cur : Option Struct)
    (query : String) (args : List Arg) (rows : Rows) (columns : List String)
    (row : Row) (rest : List Row)
    (hq : s.conn.Query query (fixArgs args) = .ok rows)
    (hc : rows.Columns = .ok columns) (hr : rows.rows = row :: rest) :
    (s.scanOne (.ptrToStructPtr T cur) query args).2.2 =
      .ptrToStructPtr T
        (some (structFromRow (cur.getD T.zero) columns row query (fixArgs args)).1) := by
  have hv : (match cur with | none => T.zero | some st => st) = cur.getD T.zero := by
    cases cur <;> rfl
  simp only [Shard.scanOne, Query_of_ok s query args rows hq, hc, hr, hv]
  cases hs : structFromRow (cur.getD T.zero) columns row query (fixArgs args) with
  | mk st status =>
    cases status with
    | ok =>
      cases rest with
      | nil => cases hE : rows.Err <;> simp
      | cons r2 rs => simp
    | err e => simp
    | panic p => simp

/-- C3: decoding a null cell into a field of any kind, settable or not and
whatever it holds, returns no error and leaves the value as it is; and
`SelectOne` into an allocated struct leaves the field named `n` as it was when
every cell of the row under a column named `n` is null. -/
theorem null_cell_keeps_field :
    (∀ (column : String) (settable : Bool) (cur : Value) (query : String) (args : List Arg),
      scanColumnValue column settable cur none query args = (cur, Status.ok)) ∧
    (∀ (s : Shard) (T : StructType) (st : Struct) (query : String) (args : List Arg)
      (rows : Rows) (columns : List String) (cs : List Cell) (rest : List Row) (n : String),
      s.conn.Query query (fixArgs args) = .ok rows → rows.Columns = .ok columns →
      rows.rows = .cells cs :: rest → (∀ v, (n, v) ∈ columns.zip cs → v = none) →
      ∃ st1, (s.SelectOne (.ptrToStructPtr T (some st)) query args).2.2
          = .ptrToStructPtr T (some st1) ∧
        FieldByName st1 n = FieldByName st n) := by
  refine ⟨fun _ _ _ _ _ => rfl, ?_⟩
  intro s T st query args rows columns cs rest n hq hc hr hnull
  refine ⟨_, scanOne_dest_of_row s T (some st) query args rows columns _ rest hq hc hr, ?_⟩
  exact structFromRow_null_keeps n st columns cs query (fixArgs args) hnull

theorem null_cell_keeps_field_witness :
    ∃ st1, ((connShard (fixedConn 0 ⟨.ok ["Name", "Age"], [.cells [none, some "31"]], none⟩)).SelectOne
        (.ptrToStructPtr personType
          (some [⟨"Name", true, .string "alice"⟩, ⟨"Age", true, .uint .b8 30⟩]))
        "SELECT * FROM people" []).2.2 = .ptrToStructPtr personType (some st1) ∧
      FieldByName st1 "Name"
        = FieldByName [⟨"Name", true, .string "alice"⟩, ⟨"Age", true, .uint .b8 30⟩] "Name" :=
  null_cell_keeps_field.2
    (connShard (fixedConn 0 ⟨.ok ["Name", "Age"], [.cells [none, some "31"]], none⟩))
    personType [⟨"Name", true, .string "alice"⟩, ⟨"Age", true, .uint .b8 30⟩]
    "SELECT * FROM people" [] ⟨.ok ["Name", "Age"], [.cells [none, some "31"]], none⟩
    ["Name", "Age"] [none, some "31"] [] "Name" rfl rfl rfl
    (by intro v hv; simp [List.zip] at hv; exact hv)

/-- C2: `SelectOne` with a pointer to a `*T` (nil or not), a query that
succeeds and a stream without error: on no row it returns found=false, no
error, and the destination as it was; on exactly one row that decodes it
returns found=true, no error, and the destination refers to the struct
`structFromRow` filled from that row; on two or more rows, the first of which
decodes, it returns an error (and found=false). -/
theorem SelectOne_cardinality (s : Shard) (T : StructType) (cur : Option Struct)
    (query : String) (args : List Arg) (rows : Rows) (columns : List String)
    (hq : s.conn.Query query (fixArgs args) = .ok rows)
    (hc : rows.Columns = .ok columns) (herr : rows.Err = none) :
    (rows.rows = [] →
      s.SelectOne (.ptrToStructPtr T cur) query args
        = (false, .ok, .ptrToStructPtr T cur)) ∧
    (∀ row st, rows.rows = [row] →
      structFromRow (cur.getD T.zero) columns row query (fixArgs args) = (st, .ok) →
      s.SelectOne (.ptrToStructPtr T cur) query args
        = (true, .ok, .ptrToStructPtr T (some st))) ∧
    (∀ row row2 rest st, rows.rows = row :: row2 :: rest →
      structFromRow (cur.getD T.zero) columns row query (fixArgs args) = (st, .ok) →
      (s.SelectOne (.ptrToStructPtr T cur) query args).1 = false ∧
      (s.SelectOne (.ptrToStructPtr T cur) query args).2.1.isErr = true) := by
  have hv : (match cur with | none => T.zero | some st => st) = cur.getD T.zero := by
    cases cur <;> rfl
  have hQ := Query_of_ok s query args rows hq
  refine ⟨?_, ?_, ?_⟩
  · intro hr
    simp [Shard.SelectOne, Shard.scanOne, hQ, hc, hr]
  · intro row st hr hs
    simp [Shard.SelectOne, Shard.scanOne, hQ, hc, hr, hv, hs, herr]
  · intro row row2 rest st hr hs
    simp [Shard.SelectOne, Shard.scanOne, hQ, hc, hr, hv, hs, Status.isErr]

theorem SelectOne_cardinality_witness :
    ((connShard (fixedConn 0 noRows)).SelectOne (.ptrToStructPtr personType none)
        "SELECT * FROM people" [] = (false, .ok, .ptrToStructPtr personType none)) ∧
    ((connShard (fixedConn 0 ⟨.ok ["Name", "Age"], [.cells [some "al", some "31"]], none⟩)).SelectOne
        (.ptrToStructPtr personType none) "SELECT * FROM people" []
      = (true, .ok, .ptrToStructPtr personType
          (some [⟨"Name", true, .string "al"⟩, ⟨"Age", true, .uint .b8 31⟩]))) ∧
    (((connShard (fixedConn 0 peopleRows)).SelectOne (.ptrToStructPtr personType none)
        "SELECT * FROM people" []).1 = false ∧
      ((connShard (fixedConn 0 peopleRows)).SelectOne (.ptrToStructPtr personType none)
        "SELECT * FROM people" []).2.1.isErr = true) :=
  ⟨(SelectOne_cardinality (connShard (fixedConn 0 noRows)) personType none
      "SELECT * FROM people" [] noRows ["Name"] rfl rfl rfl).1 rfl,
   (SelectOne_cardinality
      (connShard (fixedConn 0 ⟨.ok ["Name", "Age"], [.cells [some "al", some "31"]], none⟩))
      personType none "SELECT * FROM people" []
      ⟨.ok ["Name", "Age"], [.cells [some "al", some "31"]], none⟩ ["Name", "Age"]
      rfl rfl rfl).2.1 (.cells [some "al", some "31"])
      [⟨"Name", true, .string "al"⟩, ⟨"Age", true, .uint .b8 31⟩] rfl rfl,
   (SelectOne_cardinality (connShard (fixedConn 0 peopleRows)) personType none
      "SELECT * FROM people" [] peopleRows ["Name", "Age", "Extra"] rfl rfl rfl).2.2
      (.cells [some "alice", some "30", some "x"]) (.cells [some "bob", none, none]) []
      [⟨"Name", true, .string "alice"⟩, ⟨"Age", true, .uint .b8 30⟩] rfl rfl⟩

/-- What a successful `scanColumnValue` leaves in the field, kind by kind. -/
theorem scanColumnValue_ok_value (column : String) (settable : Bool) (cur : Value) (c : Cell)
    (query : String) (args : List Arg) (v : Value)
    (h : scanColumnValue column settable cur c query args = (v, .ok)) :
    ((c = none → v = cur) ∧
     (∀ (b s : String), c = some b → cur = Value.string s → v = Value.string b) ∧
     (∀ (b : String) (w : IntSize) (k : Nat), c = some b → cur = Value.uint w k →
       ∃ x, ParseUint b = .ok x ∧ v = Value.uint w (x % 2 ^ w.bits)) ∧
     (∀ (b : String) (w : IntSize) (k : Int), c = some b → cur = Value.int w k →
       ∃ x, ParseInt b = .ok x ∧
         v = Value.int w ((x + 2 ^ (w.bits - 1)) % 2 ^ w.bits - 2 ^ (w.bits - 1))) ∧
     (∀ (b : String) (tv : Bool), c = some b → cur = Value.bool tv →
       ∃ x, ParseBool b = some x ∧ v = Value.bool x) ∧
     (∀ (b : String) (o : Option String), c = some b → cur = Value.bytes o →
       v = Value.bytes (some b)) ∧
     (∀ (b : String), c = some b → cur ≠ Value.slice ∧ ∀ k : OtherKind, cur ≠ Value.other k)) := by
  cases c with
  | none =>
    simp only [scanColumnValue, Prod.mk.injEq, and_true] at h
    subst h
    simp
  | some bytes =>
    cases cur with
    | string s =>
      cases settable <;> simp [scanColumnValue] at h
      subst h
      simp
    | uint w k =>
      cases hp : ParseUint bytes with
      | ok x =>
        cases settable <;> simp [scanColumnValue, hp, wrapUint] at h
        subst h
        simp [hp]
      | syntaxErr => simp [scanColumnValue, hp] at h
      | rangeErr => simp [scanColumnValue, hp] at h
    | int w k =>
      cases hp : ParseInt bytes with
      | ok x =>
        cases settable <;> simp [scanColumnValue, hp, wrapInt] at h
        subst h
        simp [hp]
      | syntaxErr => simp [scanColumnValue, hp] at h
      | rangeErr => simp [scanColumnValue, hp] at h
    | bool t =>
      cases hp : ParseBool bytes with
      | some x =>
        cases settable <;> simp [scanColumnValue, hp] at h
        subst h
        simp [hp]
      | none => simp [scanColumnValue, hp] at h
    | bytes o =>
      cases settable <;> simp [scanColumnValue] at h
      subst h
      simp
    | slice => cases settable <;> simp [scanColumnValue] at h
    | other k => simp [scanColumnValue] at h

theorem FieldByName_setField_same (st : Struct) (n : String) (v : Value) (f : Field)
    (hf : FieldByName st n = some f) :
    FieldByName (setField st n v) n = some ⟨f.name, f.exported, v⟩ := by
  induction st with
  | nil => simp [FieldByName] at hf
  | cons g gs ih =>
    unfold setField
    by_cases hg : g.name = n
    · rw [if_pos hg]
      simp [FieldByName, List.find?, hg] at hf
      subst hf
      simp [FieldByName, List.find?, hg]
    · rw [if_neg hg]
      simp only [FieldByName, List.find?, hg, decide_False] at hf
      simpa [FieldByName, List.find?, hg] using ih hf

/-- After a mapping loop that ends without error over columns with distinct
names, the field named by a column holds the decoding of that column's cell. -/
theorem structFromRowLoop_decodes (query : String) (args : List Arg)
    (pairs : List (String × Cell)) (hnd : (pairs.map Prod.fst).Nodup) (st st1 : Struct)
    (hok : structFromRowLoop st query args pairs = (st1, .ok))
    (n : String) (c : Cell) (f : Field) (hmem : (n, c) ∈ pairs)
    (hf : FieldByName st n = some f) :
    ∃ v, FieldByName st1 n = some ⟨f.name, f.exported, v⟩ ∧
      ((c = none → v = f.val) ∧
       (∀ (b s : String), c = some b → f.val = Value.string s → v = Value.string b) ∧
       (∀ (b : String) (w : IntSize) (k : Nat), c = some b → f.val = Value.uint w k →
         ∃ x, ParseUint b = .ok x ∧ v = Value.uint w (x % 2 ^ w.bits)) ∧
       (∀ (b : String) (w : IntSize) (k : Int), c = some b → f.val = Value.int w k →
         ∃ x, ParseInt b = .ok x ∧
           v = Value.int w ((x + 2 ^ (w.bits - 1)) % 2 ^ w.bits - 2 ^ (w.bits - 1))) ∧
       (∀ (b : String) (tv : Bool), c = some b → f.val = Value.bool tv →
         ∃ x, ParseBool b = some x ∧ v = Value.bool x) ∧
       (∀ (b : String) (o : Option String), c = some b → f.val = Value.bytes o →
         v = Value.bytes (some b)) ∧
       (∀ (b : String), c = some b → f.val ≠ Value.slice ∧ ∀ k : OtherKind, f.val ≠ Value.other k)) := by
  induction pairs generalizing st with
  | nil => simp at hmem
  | cons pv rest ih =>
    obtain ⟨m, c0⟩ := pv
    simp only [List.map_cons, List.nodup_cons] at hnd
    obtain ⟨hm, hrest⟩ := hnd
    cases hg : FieldByName st m with
    | none =>
      simp only [structFromRowLoop, hg] at hok
      rcases List.mem_cons.mp hmem with heq | hin
      · simp only [Prod.mk.injEq] at heq
        rw [heq.1, hg] at hf
        simp at hf
      · exact ih hrest st hok hin hf
    | some g =>
      cases hs : scanColumnValue m g.exported g.val c0 query args with
      | mk v0 status =>
        cases status with
        | err e => simp [structFromRowLoop, hg, hs] at hok
        | panic p => simp [structFromRowLoop, hg, hs] at hok
        | ok =>
          simp only [structFromRowLoop, hg, hs] at hok
          rcases List.mem_cons.mp hmem with heq | hin
          · simp only [Prod.mk.injEq] at heq
            obtain ⟨hnm, hc⟩ := heq
            subst hnm
            subst hc
            rw [hg] at hf
            simp only [Option.some.injEq] at hf
            subst hf
            have hframe := structFromRowLoop_null_keeps n query args rest
              (fun v hv => absurd (List.mem_map_of_mem Prod.fst hv) hm) (setField st n v0)
            rw [hok] at hframe
            refine ⟨v0, ?_, scanColumnValue_ok_value n g.exported g.val c query args v0 hs⟩
            rw [hframe]
            exact FieldByName_setField_same st n v0 g hg
          · have hne : m ≠ n := by
              intro h
              subst h
              exact hm (List.mem_map_of_mem Prod.fst hin)
            have hf1 : FieldByName (setField st m v0) n = some f := by
              rw [FieldByName_setField_ne st m n v0 hne]
              exact hf
            exact ih hrest (setField st m v0) hok hin hf1

/-- What `structFromRow` leaves in the struct when it ends without error: a
field that no column names is as it was, and, the column names being distinct,
a field that a column names holds the decoding of that column's cell. -/
theorem structFromRow_decodes (st : Struct) (columns : List String) (cs : List Cell)
    (query : String) (args : List Arg) (st1 : Struct)
    (hok : structFromRow st columns (.cells cs) query args = (st1, .ok)) :
    (∀ n, n ∉ columns → FieldByName st1 n = FieldByName st n) ∧
    (columns.Nodup → ∀ (n : String) (c : Cell) (f : Field), (n, c) ∈ columns.zip cs →
      FieldByName st n = some f →
      ∃ v, FieldByName st1 n = some ⟨f.name, f.exported, v⟩ ∧
        ((c = none → v = f.val) ∧
         (∀ (b s : String), c = some b → f.val = Value.string s → v = Value.string b) ∧
         (∀ (b : String) (w : IntSize) (k : Nat), c = some b → f.val = Value.uint w k →
           ∃ x, ParseUint b = .ok x ∧ v = Value.uint w (x % 2 ^ w.bits)) ∧
         (∀ (b : String) (w : IntSize) (k : Int), c = some b → f.val = Value.int w k →
           ∃ x, ParseInt b = .ok x ∧
             v = Value.int w ((x + 2 ^ (w.bits - 1)) % 2 ^ w.bits - 2 ^ (w.bits - 1))) ∧
         (∀ (b : String) (tv : Bool), c = some b → f.val = Value.bool tv →
           ∃ x, ParseBool b = some x ∧ v = Value.bool x) ∧
         (∀ (b : String) (o : Option String), c = some b → f.val = Value.bytes o →
           v = Value.bytes (some b)) ∧
         (∀ (b : String), c = some b → f.val ≠ Value.slice ∧ ∀ k : OtherKind, f.val ≠ Value.other k))) := by
  unfold structFromRow Row.Scan at hok
  by_cases hlen : cs.length = columns.length
  · simp only [hlen, ne_eq, not_true_eq_false, if_false] at hok
    constructor
    · intro n hn
      have h := structFromRowLoop_null_keeps n query args (columns.zip cs)
        (fun v hv => absurd (List.of_mem_zip hv).1 hn) st
      rw [hok] at h
      exact h
    · intro hnd n c f hmem hf
      have hfst : (columns.zip cs).map Prod.fst = columns :=
        List.map_fst_zip columns cs (le_of_eq hlen.symm)
      exact structFromRowLoop_decodes query args (columns.zip cs) (by rw [hfst]; exact hnd)
        st st1 hok n c f hmem hf
  · simp [hlen] at hok

theorem Status.eq_ok_of_isOk (status : Status) (h : status.isOk = true) : status = .ok := by
  cases status <;> simp [Status.isOk] at h ⊢

/-- When every row decodes, the struct loop of `Select` appends one struct per
row, in row order, and ends without error. -/
theorem selectStructLoop_all_ok (T : StructType) (columns : List String) (query : String)
    (args : List Arg) (rs : List Row)
    (hdec : ∀ row ∈ rs, (structFromRow T.zero columns row query args).2.isOk = true)
    (acc : List Item) :
    selectStructLoop T columns query args acc rs
      = (acc ++ rs.map (fun row =>
          Item.structPtr (structFromRow T.zero columns row query args).1), .ok) := by
  induction rs generalizing acc with
  | nil => simp [selectStructLoop]
  | cons row rest ih =>
    have hrow := hdec row (List.mem_cons_self _ _)
    have hrest : ∀ r ∈ rest, (structFromRow T.zero columns r query args).2.isOk = true :=
      fun r hr => hdec r (List.mem_cons_of_mem _ hr)
    cases hs : structFromRow T.zero columns row query args with
    | mk st status =>
      rw [hs] at hrow
      cases status with
      | ok =>
        simp only [selectStructLoop, List.map_cons, hs]
        rw [ih hrest]
        simp
      | err e => simp [Status.isOk] at hrow
      | panic p => simp [Status.isOk] at hrow

/-- C1: `Select` into a pointer to an empty slice of struct pointers, with a
query that succeeds and rows that all decode, returns no error and leaves a
slice with one element per row, in row order.  The i-th element is the struct
`structFromRow` fills from a fresh zero struct and the i-th row: a field that no
column names keeps its zero value and, the column names being distinct, a
field that a column names holds the decoding of that column's cell (the text
for a string or byte field, the parsed number narrowed to the field's width
for an integer field, the parsed boolean; the zero value on a null cell). -/
theorem Select_structs_in_row_order (s : Shard) (T : StructType) (query : String)
    (args : List Arg) (rows : Rows) (columns : List String)
    (hq : s.conn.Query query (fixArgs args) = .ok rows)
    (hc : rows.Columns = .ok columns)
    (hdec : ∀ row ∈ rows.rows,
      (structFromRow T.zero columns row query (fixArgs args)).2.isOk = true) :
    ∃ out, s.Select (.ptrToSlice (.ptrToStruct T) []) query args
        = (.ptrToSlice (.ptrToStruct T) out, .ok) ∧
      out.length = rows.rows.length ∧
      ∀ (i : Nat) (row : Row), rows.rows[i]? = some row →
        ∃ st, out[i]? = some (Item.structPtr st) ∧
          structFromRow T.zero columns row query (fixArgs args) = (st, .ok) ∧
          ∀ cs, row = .cells cs →
            (∀ n, n ∉ columns → FieldByName st n = FieldByName T.zero n) ∧
            (columns.Nodup → ∀ (n : String) (c : Cell) (f : Field),
              (n, c) ∈ columns.zip cs → FieldByName T.zero n = some f →
              ∃ v, FieldByName st n = some ⟨f.name, f.exported, v⟩ ∧
                ((c = none → v = f.val) ∧
                 (∀ (b s : String), c = some b → f.val = Value.string s → v = Value.string b) ∧
                 (∀ (b : String) (w : IntSize) (k : Nat), c = some b → f.val = Value.uint w k →
                   ∃ x, ParseUint b = .ok x ∧ v = Value.uint w (x % 2 ^ w.bits)) ∧
                 (∀ (b : String) (w : IntSize) (k : Int), c = some b → f.val = Value.int w k →
                   ∃ x, ParseInt b = .ok x ∧
                     v = Value.int w ((x + 2 ^ (w.bits - 1)) % 2 ^ w.bits - 2 ^ (w.bits - 1))) ∧
                 (∀ (b : String) (tv : Bool), c = some b → f.val = Value.bool tv →
                   ∃ x, ParseBool b = some x ∧ v = Value.bool x) ∧
                 (∀ (b : String) (o : Option String), c = some b → f.val = Value.bytes o →
                   v = Value.bytes (some b)) ∧
                 (∀ (b : String), c = some b → f.val ≠ Value.slice ∧ ∀ k : OtherKind, f.val ≠ Value.other k))) := by
  refine ⟨rows.rows.map (fun row =>
    Item.structPtr (structFromRow T.zero columns row query (fixArgs args)).1), ?_, ?_, ?_⟩
  · simp [Shard.Select, Query_of_ok s query args rows hq, hc,
      selectStructLoop_all_ok T columns query (fixArgs args) rows.rows hdec, selectTail]
  · simp
  · intro i row hi
    have hmem : row ∈ rows.rows := List.getElem?_mem hi
    have hok : structFromRow T.zero columns row query (fixArgs args)
        = ((structFromRow T.zero columns row query (fixArgs args)).1, .ok) := by
      have h2 := Status.eq_ok_of_isOk _ (hdec row hmem)
      exact Prod.ext rfl h2
    refine ⟨_, by simp [hi], hok, ?_⟩
    intro cs hcs
    subst hcs
    exact structFromRow_decodes T.zero columns cs query (fixArgs args) _ hok

theorem Select_structs_in_row_order_witness :
    (connShard (fixedConn 0 peopleRows)).Select (.ptrToSlice (.ptrToStruct personType) [])
        "SELECT * FROM people" []
      = (.ptrToSlice (.ptrToStruct personType)
          [.structPtr [⟨"Name", true, .string "alice"⟩, ⟨"Age", true, .uint .b8 30⟩],
           .structPtr [⟨"Name", true, .string "bob"⟩, ⟨"Age", true, .uint .b8 0⟩]], .ok) ∧
    ∃ out, (connShard (fixedConn 0 peopleRows)).Select (.ptrToSlice (.ptrToStruct personType) [])
          "SELECT * FROM people" []
        = (.ptrToSlice (.ptrToStruct personType) out, .ok) ∧
      out.length = peopleRows.rows.length ∧
      ∀ (i : Nat) (row : Row), peopleRows.rows[i]? = some row →
        ∃ st, out[i]? = some (Item.structPtr st) ∧
          structFromRow personType.zero ["Name", "Age", "Extra"] row "SELECT * FROM people"
            (fixArgs []) = (st, .ok) := by
  refine ⟨rfl, ?_⟩
  obtain ⟨out, h1, h2, h3⟩ := Select_structs_in_row_order (connShard (fixedConn 0 peopleRows))
    personType "SELECT * FROM people" [] peopleRows ["Name", "Age", "Extra"] rfl rfl
    (by intro row hrow
        simp only [peopleRows, List.mem_cons, List.mem_singleton, List.not_mem_nil, or_false]
          at hrow
        rcases hrow with rfl | rfl <;> rfl)
  refine ⟨out, h1, h2, ?_⟩
  intro i row hi
  obtain ⟨st, h4, h5, _⟩ := h3 i row hi
  exact ⟨st, h4, h5⟩

/-- C10, the code at the failing input: the stream delivers no row and then
reports a driver error, and `Select` ends without error. -/
theorem Select_drops_stream_error :
    brokenRows.Err = some "driver: bad connection" ∧
    ((connShard (fixedConn 0 brokenRows)).Select (.ptrToSlice (.ptrToStruct personType) [])
        "SELECT Name FROM people" []).2.isOk = true := by
  constructor <;> rfl

/-- C11, the code on the kinds it has no case for: every kind other than a
slice gives the `Bad row value` error naming the column and the kind and
leaves the field as it is; a slice whose elements are not bytes reaches
`SetBytes`, which panics. -/
theorem scanColumnValue_unsupported_kinds :
    (∀ (column : String) (settable : Bool) (k : OtherKind) (bytes query : String)
      (args : List Arg),
      scanColumnValue column settable (.other k) (some bytes) query args
        = (.other k, .err (NewErrorWithInfo
            ("Bad row value for column " ++ column ++ ": " ++ k.String)
            (errInfo query args [])))) ∧
    scanColumnValue "Tags" true .slice (some "1") "SELECT Tags FROM people" []
      = (.slice, .panic "reflect.Value.SetBytes of non-byte slice") :=
  ⟨fun _ _ _ _ _ _ => rfl, rfl⟩

/-- C17: on a shard with a database whose `Begin` succeeds and a body that
returns the error `e`: if the rollback succeeds `Transact` returns exactly
`e`; if the rollback fails with `r` it returns an error with the message
`txFunc has error` whose metadata holds `e` under `TxFuncError` and `r` under
`TxRollbackError`. -/
theorem Transact_body_error (s : Shard) (db : DB) (tx : Tx) (txFunc : TxFunc) (e : Err)
    (hdb : s.db = some db) (hbegin : db.Begin = .ok tx)
    (hbody : txFunc ⟨s.DBName, none, tx.toConn⟩ = .returned (some e)) :
    (tx.Rollback = none → (s.Transact txFunc).1 = .returned (some e)) ∧
    (∀ r, tx.Rollback = some r →
      ∃ c, (s.Transact txFunc).1 = .returned (some c) ∧
        c.Message = "txFunc has error" ∧
        Info.get c.Info "TxFuncError" = some (.err e) ∧
        Info.get c.Info "TxRollbackError" = some (.stdErr (some r))) := by
  constructor
  · intro hr
    simp [Shard.Transact, hdb, hbegin, hbody, hr]
  · intro r hr
    refine ⟨NewErrorWithInfo "txFunc has error"
      [("TxFuncError", .err e), ("TxRollbackError", .stdErr (some r))], ?_, rfl, ?_, ?_⟩
    · simp [Shard.Transact, hdb, hbegin, hbody, hr]
    · simp [NewErrorWithInfo, newErr, Err.Info, Info.get]
    · simp [NewErrorWithInfo, newErr, Err.Info, Info.get]

theorem Transact_body_error_witness :
    (dbShard.Transact (fun _ => .returned (some (NewError "no")))).1
        = .returned (some (NewError "no")) ∧
    ∃ c, (badRollbackShard.Transact (fun _ => .returned (some (NewError "no")))).1
          = .returned (some c) ∧
        c.Message = "txFunc has error" ∧
        Info.get c.Info "TxFuncError" = some (.err (NewError "no")) ∧
        Info.get c.Info "TxRollbackError" = some (.stdErr (some "driver: bad connection")) :=
  ⟨(Transact_body_error dbShard _ goodTx (fun _ => .returned (some (NewError "no")))
      (NewError "no") rfl rfl rfl).1 rfl,
   (Transact_body_error badRollbackShard _ badRollbackTx
      (fun _ => .returned (some (NewError "no"))) (NewError "no") rfl rfl rfl).2
      "driver: bad connection" rfl⟩

/-- C19: `Transact` on a shard without a database returns the error
`This Shard is missing db` whatever the body is, with an empty trace: no
transaction is begun and the body is not called; and every shard `Transact`
hands to a body has no database and has the transaction just begun as its
connection, so a `Transact` on it, with any body, returns that error. -/
theorem Transact_not_nested :
    (∀ (s : Shard) (txFunc : TxFunc), s.db = none →
      s.Transact txFunc = (.returned (some (NewError "This Shard is missing db")), [])) ∧
    (∀ (s : Shard) (txFunc : TxFunc) (shard : Shard),
      Event.body shard ∈ (s.Transact txFunc).2 →
      shard.db = none ∧
      (∃ db tx, s.db = some db ∧ db.Begin = .ok tx ∧ shard = ⟨s.DBName, none, tx.toConn⟩) ∧
      ∀ inner : TxFunc,
        shard.Transact inner = (.returned (some (NewError "This Shard is missing db")), [])) := by
  have h1 : ∀ (s : Shard) (txFunc : TxFunc), s.db = none →
      s.Transact txFunc = (.returned (some (NewError "This Shard is missing db")), []) := by
    intro s txFunc hdb
    simp [Shard.Transact, hdb]
  refine ⟨h1, ?_⟩
  intro s txFunc shard hmem
  have key : shard.db = none ∧
      ∃ db tx, s.db = some db ∧ db.Begin = .ok tx ∧ shard = ⟨s.DBName, none, tx.toConn⟩ := by
    unfold Shard.Transact at hmem
    cases hdb : s.db with
    | none => simp [hdb] at hmem
    | some db =>
      cases hbegin : db.Begin with
      | error e => simp [hdb, hbegin] at hmem
      | ok tx =>
        simp only [hdb, hbegin] at hmem
        cases hbody : txFunc ⟨s.DBName, none, tx.toConn⟩ with
        | panicked p =>
          simp [hbody] at hmem
          subst hmem
          exact ⟨rfl, db, tx, rfl, hbegin, rfl⟩
        | returned e =>
          cases e with
          | none =>
            cases hcm : tx.Commit <;> simp [hbody, hcm] at hmem <;> subst hmem <;>
              exact ⟨rfl, db, tx, rfl, hbegin, rfl⟩
          | some err =>
            cases hrb : tx.Rollback <;> simp [hbody, hrb] at hmem <;> subst hmem <;>
              exact ⟨rfl, db, tx, rfl, hbegin, rfl⟩
  exact ⟨key.1, key.2, fun inner => h1 shard inner key.1⟩

theorem Transact_not_nested_witness :
    (connShard goodTx.toConn).Transact (fun _ => .returned none)
        = (.returned (some (NewError "This Shard is missing db")), []) ∧
    ((⟨dbShard.DBName, none, goodTx.toConn⟩ : Shard).db = none ∧
      (∃ db tx, dbShard.db = some db ∧ db.Begin = .ok tx ∧
        (⟨dbShard.DBName, none, goodTx.toConn⟩ : Shard) = ⟨dbShard.DBName, none, tx.toConn⟩) ∧
      ∀ inner : TxFunc,
        (⟨dbShard.DBName, none, goodTx.toConn⟩ : Shard).Transact inner
          = (.returned (some (NewError "This Shard is missing db")), [])) :=
  ⟨Transact_not_nested.1 (connShard goodTx.toConn) (fun _ => .returned none) rfl,
   Transact_not_nested.2 dbShard (fun _ => .returned none) ⟨dbShard.DBName, none, goodTx.toConn⟩
     (by simp [Shard.Transact, dbShard, goodTx])⟩

/-- C20: an integer field of any width `w` (the narrow ones included) accepts
every cell whose text parses as a 64-bit value `x` of its signedness: no
error, and the field holds `x` reduced modulo `2^w`, in two-complement for a
signed field. -/
theorem scanColumnValue_int_wraps (column : String) (w : IntSize) (bytes query : String)
    (args : List Arg) :
    (∀ (cur x : Nat), ParseUint bytes = .ok x →
      scanColumnValue column true (.uint w cur) (some bytes) query args
        = (.uint w (x % 2 ^ w.bits), .ok)) ∧
    (∀ (cur x : Int), ParseInt bytes = .ok x →
      scanColumnValue column true (.int w cur) (some bytes) query args
        = (.int w ((x + 2 ^ (w.bits - 1)) % 2 ^ w.bits - 2 ^ (w.bits - 1)), .ok)) := by
  constructor
  · intro cur x hx
    simp [scanColumnValue, hx, wrapUint]
  · intro cur x hx
    simp [scanColumnValue, hx, wrapInt]

theorem scanColumnValue_int_wraps_witness :
    scanColumnValue "Age" true (.uint .b8 0) (some "300") "SELECT Age FROM people" []
        = (.uint .b8 (300 % 2 ^ IntSize.b8.bits), .ok) ∧
    scanColumnValue "Delta" true (.int .b8 0) (some "-129") "SELECT Delta FROM people" []
        = (.int .b8 ((-129 + 2 ^ (IntSize.b8.bits - 1)) % 2 ^ IntSize.b8.bits
            - 2 ^ (IntSize.b8.bits - 1)), .ok) :=
  ⟨(scanColumnValue_int_wraps "Age" .b8 "300" "SELECT Age FROM people" []).1 0 300 rfl,
   (scanColumnValue_int_wraps "Delta" .b8 "-129" "SELECT Delta FROM people" []).2 0 (-129) rfl⟩

/-- C13, as stated, fails: the query succeeds with a single column and no
stream error and the result set has exactly one row, whose cell is NULL; the
scalar fetch returns found=false and an error, not found=true with no error. -/
theorem queryOne_null_cell_not_found :
    nullRows.rows.length = 1 ∧ nullRows.Err = none ∧
    ((connShard (fixedConn 0 nullRows)).queryOne "SELECT n FROM t" [] (.int64 0)).1 = false ∧
    ((connShard (fixedConn 0 nullRows)).queryOne "SELECT n FROM t" [] (.int64 0)).2.1.isSome
      = true ∧
    ((connShard (fixedConn 0 nullRows)).SelectInt "SELECT n FROM t" []).2.1 = false := by
  refine ⟨rfl, rfl, rfl, rfl, rfl⟩

/-- C13, amended: `queryOne` (behind `SelectInt`, `SelectString`, `SelectUint`)
with a query that succeeds and a stream without error: on no row it returns
found=false and no error; on exactly one row whose single cell `Scan` decodes
it returns found=true, no error, and the decoded value; on two or more rows,
the first of which decodes, it returns the too-many-rows error with
found=false; and when `Scan` fails on the first row (a NULL cell, a text that
does not parse, more than one column) it returns that error with found=false
and the destination as it was, whatever the number of rows. -/
theorem queryOne_cardinality (s : Shard) (query : String) (args : List Arg) (out : Out)
    (rows : Rows) (hq : s.conn.Query query (fixArgs args) = .ok rows)
    (herr : rows.Err = none) :
    (rows.rows = [] → s.queryOne query args out = (false, none, out)) ∧
    (∀ row out1, rows.rows = [row] → row.ScanOut out = .ok out1 →
      s.queryOne query args out = (true, none, out1)) ∧
    (∀ row row2 rest out1, rows.rows = row :: row2 :: rest → row.ScanOut out = .ok out1 →
      s.queryOne query args out
        = (false, some (NewErrorWithInfo "queryOne query returned too many rows"
            (errInfo query (fixArgs args) [])), out1)) ∧
    (∀ row rest stdErr, rows.rows = row :: rest → row.ScanOut out = .error stdErr →
      s.queryOne query args out
        = (false, some (NewStdErrorWithInfo (some stdErr) (errInfo query (fixArgs args) [])),
            out)) := by
  have hQ := Query_of_ok s query args rows hq
  refine ⟨?_, ?_, ?_, ?_⟩
  · intro hr
    simp [Shard.queryOne, hQ, hr, herr]
  · intro row out1 hr hs
    simp [Shard.queryOne, hQ, hr, hs, herr]
  · intro row row2 rest out1 hr hs
    simp [Shard.queryOne, hQ, hr, hs]
  · intro row rest stdErr hr hs
    simp [Shard.queryOne, hQ, hr, hs]

theorem queryOne_cardinality_witness :
    ((connShard (fixedConn 0 ⟨.ok ["n"], [], none⟩)).queryOne "SELECT n FROM t" [] (.int64 0)
        = (false, none, .int64 0)) ∧
    ((connShard (fixedConn 0 oneNumberRows)).queryOne "SELECT n FROM t" [] (.int64 0)
        = (true, none, .int64 7)) ∧
    ((connShard (fixedConn 0 twoNumberRows)).queryOne "SELECT n FROM t" [] (.int64 0)
        = (false, some (NewErrorWithInfo "queryOne query returned too many rows"
            (errInfo "SELECT n FROM t" (fixArgs []) [])), .int64 7)) ∧
    ((connShard (fixedConn 0 nullRows)).queryOne "SELECT n FROM t" [] (.int64 0)
        = (false, some (NewStdErrorWithInfo (some "converting NULL to int64 is unsupported")
            (errInfo "SELECT n FROM t" (fixArgs []) [])), .int64 0)) :=
  ⟨(queryOne_cardinality (connShard (fixedConn 0 ⟨.ok ["n"], [], none⟩)) "SELECT n FROM t" []
      (.int64 0) ⟨.ok ["n"], [], none⟩ rfl rfl).1 rfl,
   (queryOne_cardinality (connShard (fixedConn 0 oneNumberRows)) "SELECT n FROM t" []
      (.int64 0) oneNumberRows rfl rfl).2.1 (.cells [some "7"]) (.int64 7) rfl rfl,
   (queryOne_cardinality (connShard (fixedConn 0 twoNumberRows)) "SELECT n FROM t" []
      (.int64 0) twoNumberRows rfl rfl).2.2.1 (.cells [some "7"]) (.cells [some "8"]) []
      (.int64 7) rfl rfl,
   (queryOne_cardinality (connShard (fixedConn 0 nullRows)) "SELECT n FROM t" []
      (.int64 0) nullRows rfl rfl).2.2.2 (.cells [none]) []
      "converting NULL to int64 is unsupported" rfl rfl⟩

/-- C14: `Select` with a destination that is not a pointer, or a pointer to
something that is not a slice, or a pointer to a slice that is not empty,
returns an error and the destination as it was.  The result is the same on
every shard: it does not depend on what the connection would answer, the
query is not run. -/
theorem Select_rejects_destination (s : Shard) (query : String) (args : List Arg) :
    s.Select .notPointer query args
      = (.notPointer, .err (NewErrorWithInfo "Select expects a pointer to a slice of items"
          (errInfo query args []))) ∧
    s.Select .ptrToNonSlice query args
      = (.ptrToNonSlice, .err (NewErrorWithInfo "Select expects items to be a slice"
          (errInfo query args []))) ∧
    (∀ (elem : ElemType) (items : List Item), items ≠ [] →
      s.Select (.ptrToSlice elem items) query args
        = (.ptrToSlice elem items, .err (NewErrorWithInfo "Select expects items to be empty"
            (errInfo query args [])))) := by
  refine ⟨rfl, rfl, ?_⟩
  intro elem items hne
  have hlen : items.length ≠ 0 := fun h => hne (List.length_eq_zero.mp h)
  simp [Shard.Select, hlen]

theorem Select_rejects_destination_witness :
    (connShard (fixedConn 0 peopleRows)).Select
        (.ptrToSlice (.nonStruct .string) [.scalar (.string "carol")]) "SELECT Name FROM people" []
      = (.ptrToSlice (.nonStruct .string) [.scalar (.string "carol")],
          .err (NewErrorWithInfo "Select expects items to be empty"
            (errInfo "SELECT Name FROM people" [] []))) :=
  (Select_rejects_destination (connShard (fixedConn 0 peopleRows)) "SELECT Name FROM people"
    []).2.2 (.nonStruct .string) [.scalar (.string "carol")] (by simp)

/-- When every row has one cell and every cell decodes, the scalar loop of
`Select` appends one value per row, in row order, and ends without error. -/
theorem selectScalarLoop_all_ok (t : Typ) (column query : String) (args : List Arg)
    (cells : List Cell)
    (hdec : ∀ c ∈ cells, (scanColumnValue column true t.zero c query args).2.isOk = true)
    (acc : List Item) :
    selectScalarLoop t column query args acc (cells.map (fun c => Row.cells [c]))
      = (acc ++ cells.map (fun c =>
          Item.scalar (scanColumnValue column true t.zero c query args).1), .ok) := by
  induction cells generalizing acc with
  | nil => simp [selectScalarLoop]
  | cons c rest ih =>
    have hc := hdec c (List.mem_cons_self _ _)
    have hrest : ∀ d ∈ rest, (scanColumnValue column true t.zero d query args).2.isOk = true :=
      fun d hd => hdec d (List.mem_cons_of_mem _ hd)
    cases hs : scanColumnValue column true t.zero c query args with
    | mk v status =>
      rw [hs] at hc
      cases status with
      | ok =>
        simp only [List.map_cons, selectScalarLoop, Row.Scan, List.length_singleton, ne_eq,
          not_true_eq_false, if_false, List.headD_cons, hs]
        rw [ih hrest]
        simp
      | err e => simp [Status.isOk] at hc
      | panic p => simp [Status.isOk] at hc

/-- C15: `Select` into a pointer to an empty slice of a non-struct element
type, with a query that succeeds: when the result set does not have exactly
one column it returns the single-column error and the slice stays empty; when
it has one column and every row holds one cell that decodes, it returns no
error and the slice holds one value per row, in row order, the i-th being the
decoding of the i-th cell into a fresh zero value: the text for a string or
byte element, the parsed number narrowed to the element's width for an
integer element, the parsed boolean, the zero value on a null cell. -/
theorem Select_scalars (s : Shard) (t : Typ) (query : String) (args : List Arg)
    (rows : Rows) (columns : List String)
    (hq : s.conn.Query query (fixArgs args) = .ok rows)
    (hc : rows.Columns = .ok columns) :
    (columns.length ≠ 1 →
      s.Select (.ptrToSlice (.nonStruct t) []) query args
        = (.ptrToSlice (.nonStruct t) [], .err (NewErrorWithInfo
            "Select expected single column in select statement for slice of non-struct values"
            (errInfo query (fixArgs args) [])))) ∧
    (∀ (column : String) (cells : List Cell), columns = [column] →
      rows.rows = cells.map (fun c => Row.cells [c]) →
      (∀ c ∈ cells,
        (scanColumnValue column true t.zero c query (fixArgs args)).2.isOk = true) →
      ∃ vs : List Value,
        s.Select (.ptrToSlice (.nonStruct t) []) query args
          = (.ptrToSlice (.nonStruct t) (vs.map Item.scalar), .ok) ∧
        vs.length = cells.length ∧
        ∀ (i : Nat) (c : Cell), cells[i]? = some c →
          ∃ v, vs[i]? = some v ∧
            scanColumnValue column true t.zero c query (fixArgs args) = (v, .ok) ∧
            ((c = none → v = t.zero) ∧
             (∀ (b s : String), c = some b → t.zero = Value.string s → v = Value.string b) ∧
             (∀ (b : String) (w : IntSize) (k : Nat), c = some b → t.zero = Value.uint w k →
               ∃ x, ParseUint b = .ok x ∧ v = Value.uint w (x % 2 ^ w.bits)) ∧
             (∀ (b : String) (w : IntSize) (k : Int), c = some b → t.zero = Value.int w k →
               ∃ x, ParseInt b = .ok x ∧
                 v = Value.int w ((x + 2 ^ (w.bits - 1)) % 2 ^ w.bits - 2 ^ (w.bits - 1))) ∧
             (∀ (b : String) (tv : Bool), c = some b → t.zero = Value.bool tv →
               ∃ x, ParseBool b = some x ∧ v = Value.bool x) ∧
             (∀ (b : String) (o : Option String), c = some b → t.zero = Value.bytes o →
               v = Value.bytes (some b)) ∧
             (∀ (b : String), c = some b → t.zero ≠ Value.slice ∧ ∀ k : OtherKind, t.zero ≠ Value.other k))) := by
  have hQ := Query_of_ok s query args rows hq
  constructor
  · intro hlen
    simp [Shard.Select, hQ, hc, hlen]
  · intro column cells hcol hrows hdec
    subst hcol
    refine ⟨cells.map (fun c => (scanColumnValue column true t.zero c query (fixArgs args)).1),
      ?_, by simp, ?_⟩
    · simp [Shard.Select, hQ, hc, hrows,
        selectScalarLoop_all_ok t column query (fixArgs args) cells hdec, selectTail]
    · intro i c hi
      have hok : scanColumnValue column true t.zero c query (fixArgs args)
          = ((scanColumnValue column true t.zero c query (fixArgs args)).1, .ok) :=
        Prod.ext rfl (Status.eq_ok_of_isOk _ (hdec c (List.getElem?_mem hi)))
      exact ⟨_, by simp [hi], hok,
        scanColumnValue_ok_value column true t.zero c query (fixArgs args) _ hok⟩

theorem Select_scalars_witness :
    ((connShard (fixedConn 0 peopleRows)).Select (.ptrToSlice (.nonStruct .string) [])
        "SELECT * FROM people" []
      = (.ptrToSlice (.nonStruct .string) [], .err (NewErrorWithInfo
          "Select expected single column in select statement for slice of non-struct values"
          (errInfo "SELECT * FROM people" (fixArgs []) [])))) ∧
    ((connShard (fixedConn 0 twoNumberRows)).Select (.ptrToSlice (.nonStruct (.uint .b16)) [])
        "SELECT n FROM t" []
      = (.ptrToSlice (.nonStruct (.uint .b16))
          [.scalar (.uint .b16 7), .scalar (.uint .b16 8)], .ok)) ∧
    ∃ vs : List Value,
      (connShard (fixedConn 0 twoNumberRows)).Select (.ptrToSlice (.nonStruct (.uint .b16)) [])
          "SELECT n FROM t" []
        = (.ptrToSlice (.nonStruct (.uint .b16)) (vs.map Item.scalar), .ok) ∧
      vs.length = [some "7", some "8"].length := by
  refine ⟨(Select_scalars (connShard (fixedConn 0 peopleRows)) .string "SELECT * FROM people" []
      peopleRows ["Name", "Age", "Extra"] rfl rfl).1 (by decide), rfl, ?_⟩
  obtain ⟨vs, h1, h2, _⟩ := (Select_scalars (connShard (fixedConn 0 twoNumberRows)) (.uint .b16)
      "SELECT n FROM t" [] twoNumberRows ["n"] rfl rfl).2 "n" [some "7", some "8"] rfl rfl
      (by intro c hc
          simp only [List.mem_cons, List.mem_singleton, List.not_mem_nil, or_false] at hc
          rcases hc with rfl | rfl <;> rfl)
  exact ⟨vs, h1, h2⟩

theorem FieldByName_setField_isSome (st : Struct) (column n : String) (v : Value) :
    (FieldByName (setField st column v) n).isSome = (FieldByName st n).isSome := by
  induction st with
  | nil => rfl
  | cons f fs ih =>
    unfold setField
    by_cases hf : f.name = column
    · rw [if_pos hf]
      by_cases hn : f.name = n
      · simp [FieldByName, List.find?, hn]
      · simp [FieldByName, List.find?, hn]
    · rw [if_neg hf]
      by_cases hn : f.name = n
      · simp [FieldByName, List.find?, hn]
      · simpa [FieldByName, List.find?, hn] using ih

/-- The mapping loop gives the same result on the pairs whose column names a
field of the struct. -/
theorem structFromRowLoop_filter (query : String) (args : List Arg)
    (pairs : List (String × Cell)) (st : Struct) :
    structFromRowLoop st query args pairs
      = structFromRowLoop st query args
          (pairs.filter (fun p => (FieldByName st p.1).isSome)) := by
  induction pairs generalizing st with
  | nil => rfl
  | cons pv rest ih =>
    obtain ⟨column, value⟩ := pv
    cases hf : FieldByName st column with
    | none =>
      simp only [List.filter_cons, hf, Option.isSome_none, Bool.false_eq_true, if_false,
        structFromRowLoop]
      exact ih st
    | some f =>
      simp only [List.filter_cons, hf, Option.isSome_some, if_true, structFromRowLoop]
      cases hs : scanColumnValue column f.exported f.val value query args with
      | mk v status =>
        cases status with
        | ok =>
          simp only []
          rw [ih (setField st column v)]
          have hkeep : (fun p : String × Cell =>
              (FieldByName (setField st column v) p.1).isSome)
                = (fun p : String × Cell => (FieldByName st p.1).isSome) := by
            funext p
            exact FieldByName_setField_isSome st column p.1 v
          rw [hkeep]
        | err e => rfl
        | panic p => rfl

theorem zip_map_fst_map_snd (l : List (String × Cell)) :
    (l.map Prod.fst).zip (l.map Prod.snd) = l := by
  induction l with
  | nil => rfl
  | cons a l ih => simp [ih]

/-- C16: on a row holding one cell per column, `structFromRow` gives the same
result (struct and error) as on the row restricted to the columns that name a
field of the struct; a column naming no field is passed over, the loop goes
on with the struct as it is; a column naming a field has its cell decoded
into that field (the text for a string or byte field, the parsed number
narrowed to the field's width for an integer field, the parsed boolean, the
value as it was on a null cell) and the loop goes on with the struct so
written; and when `structFromRow` ends without error a field that no column
names is as it was while, the column names being distinct, a field that a
column names holds the decoding of that column's cell. -/
theorem structFromRow_only_matching (st : Struct) (columns : List String) (cs : List Cell)
    (query : String) (args : List Arg) (hlen : cs.length = columns.length) :
    structFromRow st columns (.cells cs) query args
      = structFromRow st
          (((columns.zip cs).filter (fun p => (FieldByName st p.1).isSome)).map Prod.fst)
          (.cells (((columns.zip cs).filter (fun p => (FieldByName st p.1).isSome)).map Prod.snd))
          query args ∧
    (∀ (column : String) (value : Cell) (rest : List (String × Cell)),
      FieldByName st column = none →
      structFromRowLoop st query args ((column, value) :: rest)
        = structFromRowLoop st query args rest) ∧
    (∀ (column : String) (c : Cell) (rest : List (String × Cell)) (f : Field) (v : Value),
      FieldByName st column = some f →
      scanColumnValue column f.exported f.val c query args = (v, .ok) →
      structFromRowLoop st query args ((column, c) :: rest)
        = structFromRowLoop (setField st column v) query args rest ∧
      FieldByName (setField st column v) column = some ⟨f.name, f.exported, v⟩ ∧
      ((c = none → v = f.val) ∧
       (∀ (b s : String), c = some b → f.val = Value.string s → v = Value.string b) ∧
       (∀ (b : String) (w : IntSize) (k : Nat), c = some b → f.val = Value.uint w k →
         ∃ x, ParseUint b = .ok x ∧ v = Value.uint w (x % 2 ^ w.bits)) ∧
       (∀ (b : String) (w : IntSize) (k : Int), c = some b → f.val = Value.int w k →
         ∃ x, ParseInt b = .ok x ∧
           v = Value.int w ((x + 2 ^ (w.bits - 1)) % 2 ^ w.bits - 2 ^ (w.bits - 1))) ∧
       (∀ (b : String) (tv : Bool), c = some b → f.val = Value.bool tv →
         ∃ x, ParseBool b = some x ∧ v = Value.bool x) ∧
       (∀ (b : String) (o : Option String), c = some b → f.val = Value.bytes o →
         v = Value.bytes (some b)) ∧
       (∀ (b : String), c = some b → f.val ≠ Value.slice ∧ ∀ k : OtherKind, f.val ≠ Value.other k))) ∧
    (∀ st1, structFromRow st columns (.cells cs) query args = (st1, .ok) →
      (∀ n, n ∉ columns → FieldByName st1 n = FieldByName st n) ∧
      (columns.Nodup → ∀ (n : String) (c : Cell) (f : Field), (n, c) ∈ columns.zip cs →
        FieldByName st n = some f →
        ∃ v, FieldByName st1 n = some ⟨f.name, f.exported, v⟩ ∧
          ((c = none → v = f.val) ∧
           (∀ (b s : String), c = some b → f.val = Value.string s → v = Value.string b) ∧
           (∀ (b : String) (w : IntSize) (k : Nat), c = some b → f.val = Value.uint w k →
             ∃ x, ParseUint b = .ok x ∧ v = Value.uint w (x % 2 ^ w.bits)) ∧
           (∀ (b : String) (w : IntSize) (k : Int), c = some b → f.val = Value.int w k →
             ∃ x, ParseInt b = .ok x ∧
               v = Value.int w ((x + 2 ^ (w.bits - 1)) % 2 ^ w.bits - 2 ^ (w.bits - 1))) ∧
           (∀ (b : String) (tv : Bool), c = some b → f.val = Value.bool tv →
             ∃ x, ParseBool b = some x ∧ v = Value.bool x) ∧
           (∀ (b : String) (o : Option String), c = some b → f.val = Value.bytes o →
             v = Value.bytes (some b)) ∧
           (∀ (b : String), c = some b → f.val ≠ Value.slice ∧ ∀ k : OtherKind, f.val ≠ Value.other k)))) := by
  refine ⟨?_, ?_, ?_, ?_⟩
  · simp only [structFromRow, Row.Scan, hlen, List.length_map, ne_eq, not_true_eq_false,
      if_false, zip_map_fst_map_snd]
    exact structFromRowLoop_filter query args (columns.zip cs) st
  · intro column value rest hf
    simp [structFromRowLoop, hf]
  · intro column c rest f v hf hs
    refine ⟨by simp only [structFromRowLoop, hf, hs],
      FieldByName_setField_same st column v f hf,
      scanColumnValue_ok_value column f.exported f.val c query args v hs⟩
  · intro st1 hok
    exact structFromRow_decodes st columns cs query args st1 hok

theorem structFromRow_only_matching_witness :
    structFromRow personType.zero ["Name", "Age", "Extra"]
        (.cells [some "alice", some "30", some "x"]) "SELECT * FROM people" []
      = ([⟨"Name", true, .string "alice"⟩, ⟨"Age", true, .uint .b8 30⟩], .ok) ∧
    structFromRow personType.zero ["Name", "Age"]
        (.cells [some "alice", some "30"]) "SELECT * FROM people" []
      = ([⟨"Name", true, .string "alice"⟩, ⟨"Age", true, .uint .b8 30⟩], .ok) ∧
    structFromRow personType.zero ["Name", "Age", "Extra"]
        (.cells [some "alice", some "30", some "x"]) "SELECT * FROM people" []
      = structFromRow personType.zero
          (((["Name", "Age", "Extra"].zip [some "alice", some "30", some "x"]).filter
            (fun p => (FieldByName personType.zero p.1).isSome)).map Prod.fst)
          (.cells (((["Name", "Age", "Extra"].zip [some "alice", some "30", some "x"]).filter
            (fun p => (FieldByName personType.zero p.1).isSome)).map Prod.snd))
          "SELECT * FROM people" [] ∧
    (∀ n, n ∉ ["Name", "Age", "Extra"] →
      FieldByName [⟨"Name", true, .string "alice"⟩, ⟨"Age", true, .uint .b8 30⟩] n
        = FieldByName personType.zero n) :=
  ⟨rfl, rfl,
   (structFromRow_only_matching personType.zero ["Name", "Age", "Extra"]
      [some "alice", some "30", some "x"] "SELECT * FROM people" [] rfl).1,
   ((structFromRow_only_matching personType.zero ["Name", "Age", "Extra"]
      [some "alice", some "30", some "x"] "SELECT * FROM people" [] rfl).2.2.2
      [⟨"Name", true, .string "alice"⟩, ⟨"Age", true, .uint .b8 30⟩] rfl).1⟩

theorem digitChar_spec (d : Nat) (hd : d < 10) :
    '0' ≤ digitChar d ∧ digitChar d ≤ '9' ∧ (digitChar d).toNat - '0'.toNat = d ∧
      digitChar d ≠ '+' ∧ digitChar d ≠ '-' := by
  interval_cases d <;> decide

/-- One step of the digit loop on a digit that does not overflow. -/
theorem parseUintLoop_digit (a d : Nat) (hd : d < 10) (hfit : a * 10 + d ≤ maxUint64)
    (cs : List Char) :
    parseUintLoop a (digitChar d :: cs) = parseUintLoop (a * 10 + d) cs := by
  obtain ⟨h0, h9, hval, _, _⟩ := digitChar_spec d hd
  have hcut : ¬ a ≥ maxUint64 / 10 + 1 := by
    have : a ≤ maxUint64 / 10 := by
      rw [Nat.le_div_iff_mul_le (by norm_num)]
      omega
    omega
  have hfit2 : ¬ a * 10 + d > maxUint64 := by omega
  simp only [parseUintLoop, h0, h9, and_self, if_true, hcut, if_false, hval, hfit2]

theorem parseUintLoop_append (xs ys : List Char) (a : Nat) :
    parseUintLoop a (xs ++ ys)
      = match parseUintLoop a xs with
        | .ok m => parseUintLoop m ys
        | .syntaxErr => .syntaxErr
        | .rangeErr => .rangeErr := by
  induction xs generalizing a with
  | nil => simp [parseUintLoop]
  | cons c cs ih =>
    simp only [List.cons_append, parseUintLoop]
    split
    · split
      · rfl
      · split
        · rfl
        · exact ih _
    · rfl

/-- Parsing the decimal digits of a 64-bit value gives the value back. -/
theorem parseUintLoop_decimalDigits (n : Nat) (hn : n ≤ maxUint64) :
    parseUintLoop 0 (decimalDigits n) = .ok n := by
  induction n using Nat.strong_induction_on with
  | _ n ih =>
    rw [decimalDigits]
    by_cases hlt : n < 10
    · simp only [hlt, if_true]
      rw [parseUintLoop_digit 0 n hlt (by omega)]
      simp [parseUintLoop]
    · simp only [hlt, if_false]
      rw [parseUintLoop_append, ih (n / 10) (by omega) (by omega)]
      simp only []
      rw [parseUintLoop_digit (n / 10) (n % 10) (Nat.mod_lt _ (by norm_num)) (by omega)]
      have : n / 10 * 10 + n % 10 = n := by omega
      simp [parseUintLoop, this]

/-- The decimal digits start with a digit character. -/
theorem decimalDigits_head (n : Nat) :
    ∃ d rest, d < 10 ∧ decimalDigits n = digitChar d :: rest := by
  induction n using Nat.strong_induction_on with
  | _ n ih =>
    rw [decimalDigits]
    by_cases hlt : n < 10
    · exact ⟨n, [], hlt, by simp [hlt]⟩
    · obtain ⟨d, rest, hd, hrest⟩ := ih (n / 10) (by omega)
      exact ⟨d, rest ++ [digitChar (n % 10)], hd, by simp [hlt, hrest]⟩

theorem ParseUint_formatUint (n : Nat) (hn : n ≤ maxUint64) :
    ParseUint (formatUint n) = .ok n := by
  obtain ⟨d, rest, _, hrest⟩ := decimalDigits_head n
  have hne : formatUint n ≠ "" := by
    intro h
    have := congrArg String.data h
    simp [formatUint, hrest] at this
  simp only [ParseUint, hne, if_false]
  exact parseUintLoop_decimalDigits n hn

theorem ParseInt_minus (ds : List Char) (n : Nat) (hds : ds ≠ [])
    (hp : parseUintLoop 0 ds = .ok n) (hn : n ≤ 2 ^ 63) :
    ParseInt (String.mk ('-' :: ds)) = .ok (-(n : Int)) := by
  have h2 : ¬ n > 2 ^ 63 := by omega
  simp only [ParseInt, String.toList, or_true, if_true, hds, if_false, hp, not_true_eq_false,
    false_and, true_and, h2]

theorem ParseInt_plain (c : Char) (cs : List Char) (n : Nat) (hplus : c ≠ '+')
    (hminus : c ≠ '-') (hp : parseUintLoop 0 (c :: cs) = .ok n) (hn : n < 2 ^ 63) :
    ParseInt (String.mk (c :: cs)) = .ok (n : Int) := by
  have h2 : ¬ n ≥ 2 ^ 63 := by omega
  have hne : ¬ (c :: cs = []) := by simp
  simp only [ParseInt, String.toList, hplus, hminus, or_false, if_false, hne, hp,
    not_false_eq_true, true_and, false_and, h2]

theorem ParseInt_formatInt (i : Int) (hlo : -(2 ^ 63) ≤ i) (hhi : i < 2 ^ 63) :
    ParseInt (formatInt i) = .ok i := by
  obtain ⟨d, rest, hd, hrest⟩ := decimalDigits_head i.natAbs
  obtain ⟨_, _, _, hplus, hminus⟩ := digitChar_spec d hd
  have hmax : i.natAbs ≤ maxUint64 := by
    have : maxUint64 = 18446744073709551615 := by norm_num [maxUint64]
    omega
  have hparse := parseUintLoop_decimalDigits i.natAbs hmax
  by_cases hneg : i < 0
  · have hrestne : decimalDigits i.natAbs ≠ [] := by simp [hrest]
    have h3 : -(i.natAbs : Int) = i := by omega
    rw [formatInt, if_pos hneg, ParseInt_minus _ i.natAbs hrestne hparse (by omega), h3]
  · have h3 : (i.natAbs : Int) = i := by omega
    rw [hrest] at hparse
    rw [formatInt, if_neg hneg, hrest,
      ParseInt_plain _ rest i.natAbs hplus hminus hparse (by omega), h3]

theorem wrapUint_of_lt (bits x : Nat) (hx : x < 2 ^ bits) : wrapUint bits x = x :=
  Nat.mod_eq_of_lt hx

theorem IntSize.bits_pos (w : IntSize) : 1 ≤ w.bits := by
  cases w <;> simp [IntSize.bits]

theorem IntSize.bits_le (w : IntSize) : w.bits ≤ 64 := by
  cases w <;> simp [IntSize.bits]

theorem wrapInt_of_range (bits : Nat) (hb : 1 ≤ bits) (x : Int)
    (hlo : -(2 ^ (bits - 1)) ≤ x) (hhi : x < 2 ^ (bits - 1)) : wrapInt bits x = x := by
  have hpow : (2 : Int) ^ bits = 2 * 2 ^ (bits - 1) := by
    obtain ⟨k, rfl⟩ : ∃ k, bits = k + 1 := ⟨bits - 1, by omega⟩
    simp [pow_succ, mul_comm]
  unfold wrapInt
  rw [Int.emod_eq_of_lt (by omega) (by omega)]
  omega

/-- C12: for a settable field of each supported kind and every value `v` of
that kind, decoding the cell that holds the canonical text of `v` returns no
error and leaves exactly `v` in the field: any string, any unsigned or signed
integer within the width of the field (8, 16, 32, 64 bits and the platform
word), either boolean, any byte sequence. -/
theorem scanColumnValue_round_trip (column query : String) (args : List Arg) :
    (∀ (cur v : String),
      scanColumnValue column true (.string cur) (some v) query args = (.string v, .ok)) ∧
    (∀ (w : IntSize) (cur n : Nat), n < 2 ^ w.bits →
      scanColumnValue column true (.uint w cur) (some (formatUint n)) query args
        = (.uint w n, .ok)) ∧
    (∀ (w : IntSize) (cur i : Int), -(2 ^ (w.bits - 1)) ≤ i → i < 2 ^ (w.bits - 1) →
      scanColumnValue column true (.int w cur) (some (formatInt i)) query args
        = (.int w i, .ok)) ∧
    (∀ (cur b : Bool),
      scanColumnValue column true (.bool cur) (some (formatBool b)) query args
        = (.bool b, .ok)) ∧
    (∀ (cur : Option String) (v : String),
      scanColumnValue column true (.bytes cur) (some v) query args
        = (.bytes (some v), .ok)) := by
  refine ⟨fun _ _ => rfl, ?_, ?_, ?_, fun _ _ => rfl⟩
  · intro w cur n hn
    have hmax : n ≤ maxUint64 := by
      have h64 : n < 2 ^ 64 := lt_of_lt_of_le hn (Nat.pow_le_pow_right (by norm_num) w.bits_le)
      have : maxUint64 = 2 ^ 64 - 1 := rfl
      omega
    simp [scanColumnValue, ParseUint_formatUint n hmax, wrapUint_of_lt w.bits n hn]
  · intro w cur i hlo hhi
    have hp : (2 : Int) ^ (w.bits - 1) ≤ 2 ^ 63 :=
      pow_le_pow_right₀ (by norm_num) (by have := w.bits_le; omega)
    have hparse := ParseInt_formatInt i (by omega) (by omega)
    simp [scanColumnValue, hparse, wrapInt_of_range w.bits w.bits_pos i hlo hhi]
  · intro cur b
    cases b <;> rfl

theorem scanColumnValue_round_trip_witness :
    scanColumnValue "Age" true (.uint .b8 0) (some (formatUint 255)) "SELECT Age FROM people" []
        = (.uint .b8 255, .ok) ∧
    scanColumnValue "Delta" true (.int .b16 0) (some (formatInt (-32768)))
        "SELECT Delta FROM people" []
        = (.int .b16 (-32768), .ok) :=
  ⟨(scanColumnValue_round_trip "Age" "SELECT Age FROM people" []).2.1 .b8 0 255 (by decide),
   (scanColumnValue_round_trip "Delta" "SELECT Delta FROM people" []).2.2.1 .b16 0 (-32768)
     (by decide) (by decide)⟩

theorem EncodeToString_length : ∀ (l : List Nat),
    (EncodeToString l).length = 4 * ((l.length + 2) / 3)
  | a :: b :: c :: rest => by
    simp only [EncodeToString, List.length_cons, EncodeToString_length rest]
    omega
  | [a, b] => by simp [EncodeToString]
  | [a] => by simp [EncodeToString]
  | [] => by simp [EncodeToString]

theorem ReadFull_length (rand : Reader) (n : Nat) (buf : List Nat)
    (h : ReadFull rand n = .ok buf) : buf.length = n := by
  unfold ReadFull at h
  by_cases hn : n = 0
  · simp [hn] at h
    simp [← h, hn]
  · cases he : rand.err with
    | some e => simp [hn, he] at h
    | none =>
      simp [hn, he] at h
      simp [← h]

/-- C18, the code at the failing inputs: with a random source that succeeds,
whatever bytes it yields, `Uid(4 * n)` returns without error a uid of
`4 * ((4 * n + 2) / 3)` characters, the base64 text of `4 * n` bytes; so
`Uid(4)` returns 8 characters, `AAAAAA==` when the bytes are zero. -/
theorem Uid_length (n : Nat) (byte : Nat → Nat) :
    (Uid (4 * (n : Int)) ⟨none, byte⟩).2.isOk = true ∧
    (Uid (4 * (n : Int)) ⟨none, byte⟩).1.length = 4 * ((4 * n + 2) / 3) ∧
    (Uid 4 ⟨none, byte⟩).1.length = 8 ∧
    (Uid 4 ⟨none, fun _ => 0⟩).1 = "AAAAAA==" := by
  have hmod : Int.tmod (4 * (n : Int)) 4 = 0 := Int.mul_tmod_right _ _
  have hneg : ¬ (4 * (n : Int) < 0) := by omega
  have hnat : (4 * (n : Int)).toNat = 4 * n := by omega
  have hgen : (Uid (4 * (n : Int)) ⟨none, byte⟩).2.isOk = true ∧
      (Uid (4 * (n : Int)) ⟨none, byte⟩).1.length = 4 * ((4 * n + 2) / 3) := by
    simp only [Uid, hmod, ne_eq, not_true_eq_false, if_false, hneg, hnat]
    cases hr : ReadFull ⟨none, byte⟩ (4 * n) with
    | error e =>
      unfold ReadFull at hr
      by_cases h0 : 4 * n = 0 <;> simp [h0] at hr
    | ok buf =>
      have hlen := ReadFull_length _ _ _ hr
      simp [Status.isOk, EncodeToString_length, hlen]
  refine ⟨hgen.1, hgen.2, ?_, by decide⟩
  simp [Uid, ReadFull, EncodeToString_length]

end Elmo
